import Mathlib

/-!
3D-Square: the shader build logic of `demo.js` and `webgl-demo.js`.

The two scripts talk to a WebGL rendering context `gl`.  The context is not part of the
repository, so the scripts are embedded over an arbitrary `Device σ`: a record with one state
transformer per WebGL entry point the scripts call.  Every call that reaches the device,
every `console.log` and every `alert` is appended, in program order, to the event list of the
`World`, so that statements about *which calls are issued* hold for every device.

Between the scripts and the device sits the WebGL binding.  Its interface declares which
object arguments may be `null`:

* `deleteShader(WebGLShader?)`, `useProgram(WebGLProgram?)` and
  `uniform4fv(WebGLUniformLocation?, ..)` accept `null`;
* `shaderSource`, `compileShader`, `getShaderParameter`, `getShaderInfoLog`, `attachShader`,
  `linkProgram`, `getProgramParameter`, `getProgramInfoLog`, `getUniformLocation` and
  `getAttribLocation` take a `WebGLShader` or `WebGLProgram` that is not nullable: called
  with `null` they throw a `TypeError` before the device is reached.

The scripts catch nothing, so a `TypeError` ends the running function and its callers.  The
result of a function is therefore an `Outcome`: it returned a value, or it threw, each with
the world at that point.

Statements about *resources* (which shader and program objects are allocated) are made over
`mockGL`, a reference device with WebGL object lifetimes, whose compiler and linker verdicts
are supplied by a `Driver`.

Further conventions:
* a nullable WebGL object is an `Option`, `null` being `none`;
* `!gl.getShaderParameter(..)` and `!gl.getProgramParameter(..)` only look at the truthiness
  of the answer, which is what the `Bool` stands for;
* JavaScript numbers are exact rationals.
-/

namespace Square3D

/-- A WebGL object (shader or program) is identified by a number. -/
abbrev Handle := Nat

/-- The two shader types the scripts use: `gl.VERTEX_SHADER` and `gl.FRAGMENT_SHADER`. -/
inductive ShaderType
  | VERTEX_SHADER
  | FRAGMENT_SHADER
  deriving DecidableEq, Repr

/-- A value handed to `console.log`. -/
inductive LogArg
  | str (s : String)
  | text (s : Option String)
  | location (l : Option Nat)
  deriving DecidableEq, Repr

/-- The object literal `programInfo` built by `main`: the program and the two location
dictionaries, keyed by the property names of the literal, in source order. -/
structure ProgramInfo where
  program : Option Handle
  attribLocations : List (String × Int)
  uniformLocations : List (String × Option Nat)
  deriving DecidableEq, Repr

/-- Everything observable the scripts do, in program order: the WebGL calls that reach the
device, with their arguments and answers, the `TypeError` of a call the binding refused
(with the name of the method), `console.log`, `alert`, the calls of the imported
`initBuffers` and `drawScene`, and `requestAnimationFrame`. -/
inductive Event
  | clearColor (r g b a : ℚ)
  | clear
  | createShader (type : ShaderType) (result : Option Handle)
  | shaderSource (shader : Handle) (source : String)
  | compileShader (shader : Handle)
  | getShaderParameter (shader : Handle) (result : Bool)
  | getShaderInfoLog (shader : Handle) (result : Option String)
  | deleteShader (shader : Option Handle)
  | createProgram (result : Option Handle)
  | attachShader (program : Handle) (shader : Handle)
  | linkProgram (program : Handle)
  | getProgramParameter (program : Handle) (result : Bool)
  | getProgramInfoLog (program : Handle) (result : Option String)
  | getUniformLocation (program : Handle) (name : String) (result : Option Nat)
  | useProgram (program : Option Handle)
  | uniform4fv (location : Option Nat) (value : List ℚ)
  | getAttribLocation (program : Handle) (name : String) (result : Int)
  | typeError (method : String)
  | consoleLog (args : List LogArg)
  | alert (message : String)
  | initBuffers
  | drawScene (programInfo : ProgramInfo) (rotation : Option ℚ)
  | requestAnimationFrame
  deriving DecidableEq, Repr

/-- The WebGL entry points the scripts call, as transformers of the device state `σ`.  An
argument the binding declares not nullable is a `Handle`, a nullable one an `Option`.
`getShaderParameter` is the query of `gl.COMPILE_STATUS`, `getProgramParameter` the query of
`gl.LINK_STATUS`, `clear` the clear of `gl.COLOR_BUFFER_BIT`: the scripts use no other
parameter. -/
structure Device (σ : Type) where
  clearColor : σ → ℚ → ℚ → ℚ → ℚ → σ
  clear : σ → σ
  createShader : σ → ShaderType → Option Handle × σ
  shaderSource : σ → Handle → String → σ
  compileShader : σ → Handle → σ
  getShaderParameter : σ → Handle → Bool × σ
  getShaderInfoLog : σ → Handle → Option String × σ
  deleteShader : σ → Option Handle → σ
  createProgram : σ → Option Handle × σ
  attachShader : σ → Handle → Handle → σ
  linkProgram : σ → Handle → σ
  getProgramParameter : σ → Handle → Bool × σ
  getProgramInfoLog : σ → Handle → Option String × σ
  getUniformLocation : σ → Handle → String → Option Nat × σ
  useProgram : σ → Option Handle → σ
  uniform4fv : σ → Option Nat → List ℚ → σ
  getAttribLocation : σ → Handle → String → Int × σ

/-- The device state together with the events so far (oldest first). -/
structure World (σ : Type) where
  gl : σ
  events : List Event

/-- How a call or a function of the scripts ends: it returned `value`, or an uncaught
`TypeError` ended it; `world` is the world at that point. -/
inductive Outcome (σ α : Type)
  | returned (value : α) (world : World σ)
  | threw (world : World σ)

namespace Outcome

variable {σ α β : Type}

/-- The statements after a call: they run when the call returned, and are skipped when it
threw. -/
def bind (o : Outcome σ α) (k : α → World σ → Outcome σ β) : Outcome σ β :=
  match o with
  | returned a w => k a w
  | threw w => threw w

/-- The returned value, if any. -/
def value? : Outcome σ α → Option α
  | returned a _ => some a
  | threw _ => none

/-- The world at the end. -/
def world : Outcome σ α → World σ
  | returned _ w => w
  | threw w => w

end Outcome

/-- JavaScript string conversion of a `DOMString?` inside a template literal. -/
def jsString : Option String → String
  | some s => s
  | none => "null"

/-- The call `console.log(args)`. -/
def consoleLog {σ : Type} (w : World σ) (args : List LogArg) : World σ :=
  ⟨w.gl, w.events ++ [Event.consoleLog args]⟩

/-- The call `alert(message)`. -/
def alert {σ : Type} (w : World σ) (message : String) : World σ :=
  ⟨w.gl, w.events ++ [Event.alert message]⟩

/-- The `TypeError` the binding throws when method `method` is called with `null` for an
object that is not nullable. -/
def throwTypeError {σ α : Type} (w : World σ) (method : String) : Outcome σ α :=
  Outcome.threw ⟨w.gl, w.events ++ [Event.typeError method]⟩

namespace WebGL

variable {σ : Type}

/-- The call `gl.clearColor(r, g, b, a)`. -/
def clearColor (gl : Device σ) (w : World σ) (r g b a : ℚ) : World σ :=
  ⟨gl.clearColor w.gl r g b a, w.events ++ [Event.clearColor r g b a]⟩

/-- The call `gl.clear(gl.COLOR_BUFFER_BIT)`. -/
def clear (gl : Device σ) (w : World σ) : World σ :=
  ⟨gl.clear w.gl, w.events ++ [Event.clear]⟩

/-- The call `gl.createShader(type)`. -/
def createShader (gl : Device σ) (w : World σ) (type : ShaderType) : Option Handle × World σ :=
  ((gl.createShader w.gl type).1,
    ⟨(gl.createShader w.gl type).2,
      w.events ++ [Event.createShader type (gl.createShader w.gl type).1]⟩)

/-- The call `gl.shaderSource(shader, source)`. -/
def shaderSource (gl : Device σ) (w : World σ) (shader : Option Handle) (source : String) :
    Outcome σ Unit :=
  match shader with
  | none => throwTypeError w "shaderSource"
  | some h =>
    Outcome.returned () ⟨gl.shaderSource w.gl h source, w.events ++ [Event.shaderSource h source]⟩

/-- The call `gl.compileShader(shader)`. -/
def compileShader (gl : Device σ) (w : World σ) (shader : Option Handle) : Outcome σ Unit :=
  match shader with
  | none => throwTypeError w "compileShader"
  | some h =>
    Outcome.returned () ⟨gl.compileShader w.gl h, w.events ++ [Event.compileShader h]⟩

/-- The call `gl.getShaderParameter(shader, gl.COMPILE_STATUS)`. -/
def getShaderParameter (gl : Device σ) (w : World σ) (shader : Option Handle) :
    Outcome σ Bool :=
  match shader with
  | none => throwTypeError w "getShaderParameter"
  | some h =>
    Outcome.returned (gl.getShaderParameter w.gl h).1
      ⟨(gl.getShaderParameter w.gl h).2,
        w.events ++ [Event.getShaderParameter h (gl.getShaderParameter w.gl h).1]⟩

/-- The call `gl.getShaderInfoLog(shader)`. -/
def getShaderInfoLog (gl : Device σ) (w : World σ) (shader : Option Handle) :
    Outcome σ (Option String) :=
  match shader with
  | none => throwTypeError w "getShaderInfoLog"
  | some h =>
    Outcome.returned (gl.getShaderInfoLog w.gl h).1
      ⟨(gl.getShaderInfoLog w.gl h).2,
        w.events ++ [Event.getShaderInfoLog h (gl.getShaderInfoLog w.gl h).1]⟩

/-- The call `gl.deleteShader(shader)`. -/
def deleteShader (gl : Device σ) (w : World σ) (shader : Option Handle) : World σ :=
  ⟨gl.deleteShader w.gl shader, w.events ++ [Event.deleteShader shader]⟩

/-- The call `gl.createProgram()`. -/
def createProgram (gl : Device σ) (w : World σ) : Option Handle × World σ :=
  ((gl.createProgram w.gl).1,
    ⟨(gl.createProgram w.gl).2, w.events ++ [Event.createProgram (gl.createProgram w.gl).1]⟩)

/-- The call `gl.attachShader(program, shader)`. -/
def attachShader (gl : Device σ) (w : World σ) (program shader : Option Handle) :
    Outcome σ Unit :=
  match program, shader with
  | some p, some h =>
    Outcome.returned () ⟨gl.attachShader w.gl p h, w.events ++ [Event.attachShader p h]⟩
  | _, _ => throwTypeError w "attachShader"

/-- The call `gl.linkProgram(program)`. -/
def linkProgram (gl : Device σ) (w : World σ) (program : Option Handle) : Outcome σ Unit :=
  match program with
  | none => throwTypeError w "linkProgram"
  | some p => Outcome.returned () ⟨gl.linkProgram w.gl p, w.events ++ [Event.linkProgram p]⟩

/-- The call `gl.getProgramParameter(program, gl.LINK_STATUS)`. -/
def getProgramParameter (gl : Device σ) (w : World σ) (program : Option Handle) :
    Outcome σ Bool :=
  match program with
  | none => throwTypeError w "getProgramParameter"
  | some p =>
    Outcome.returned (gl.getProgramParameter w.gl p).1
      ⟨(gl.getProgramParameter w.gl p).2,
        w.events ++ [Event.getProgramParameter p (gl.getProgramParameter w.gl p).1]⟩

/-- The call `gl.getProgramInfoLog(program)`. -/
def getProgramInfoLog (gl : Device σ) (w : World σ) (program : Option Handle) :
    Outcome σ (Option String) :=
  match program with
  | none => throwTypeError w "getProgramInfoLog"
  | some p =>
    Outcome.returned (gl.getProgramInfoLog w.gl p).1
      ⟨(gl.getProgramInfoLog w.gl p).2,
        w.events ++ [Event.getProgramInfoLog p (gl.getProgramInfoLog w.gl p).1]⟩

/-- The call `gl.getUniformLocation(program, name)`. -/
def getUniformLocation (gl : Device σ) (w : World σ) (program : Option Handle)
    (name : String) : Outcome σ (Option Nat) :=
  match program with
  | none => throwTypeError w "getUniformLocation"
  | some p =>
    Outcome.returned (gl.getUniformLocation w.gl p name).1
      ⟨(gl.getUniformLocation w.gl p name).2,
        w.events ++ [Event.getUniformLocation p name (gl.getUniformLocation w.gl p name).1]⟩

/-- The call `gl.useProgram(program)`. -/
def useProgram (gl : Device σ) (w : World σ) (program : Option Handle) : World σ :=
  ⟨gl.useProgram w.gl program, w.events ++ [Event.useProgram program]⟩

/-- The call `gl.uniform4fv(location, value)`. -/
def uniform4fv (gl : Device σ) (w : World σ) (location : Option Nat) (value : List ℚ) :
    World σ :=
  ⟨gl.uniform4fv w.gl location value, w.events ++ [Event.uniform4fv location value]⟩

/-- The call `gl.getAttribLocation(program, name)`. -/
def getAttribLocation (gl : Device σ) (w : World σ) (program : Option Handle)
    (name : String) : Outcome σ Int :=
  match program with
  | none => throwTypeError w "getAttribLocation"
  | some p =>
    Outcome.returned (gl.getAttribLocation w.gl p name).1
      ⟨(gl.getAttribLocation w.gl p name).2,
        w.events ++ [Event.getAttribLocation p name (gl.getAttribLocation w.gl p name).1]⟩

end WebGL

/-- The functions the scripts import from files that are not part of the sources at hand
(`buffer.js`, `draw.js`, `init-buffers.js`, `draw-scene.js`): what they do to the device is
left open, `β` being whatever `initBuffers` returns. -/
structure Imports (σ β : Type) where
  initBuffers : σ → β × σ
  drawScene : σ → ProgramInfo → β → Option ℚ → σ

/-- The call `initBuffers(gl)`. -/
def initBuffers {σ β : Type} (imp : Imports σ β) (w : World σ) : β × World σ :=
  ((imp.initBuffers w.gl).1, ⟨(imp.initBuffers w.gl).2, w.events ++ [Event.initBuffers]⟩)

/-- The call `drawScene(gl, programInfo, buffers)` or, with a fourth argument,
`drawScene(gl, programInfo, buffers, cubeRotation)`. -/
def drawScene {σ β : Type} (imp : Imports σ β) (w : World σ) (programInfo : ProgramInfo)
    (buffers : β) (rotation : Option ℚ) : World σ :=
  ⟨imp.drawScene w.gl programInfo buffers rotation,
    w.events ++ [Event.drawScene programInfo rotation]⟩

/-- The call `requestAnimationFrame(render)`: the callback is queued, nothing runs yet. -/
def requestAnimationFrame {σ : Type} (w : World σ) : World σ :=
  ⟨w.gl, w.events ++ [Event.requestAnimationFrame]⟩

/-! ## `src/demo.js` -/

namespace Demo

variable {σ β : Type}

/-- The function `loadShader(gl, type, source)` of `demo.js`. -/
def loadShader (gl : Device σ) (w : World σ) (type : ShaderType) (source : String) :
    Outcome σ (Option Handle) :=
  let r := WebGL.createShader gl w type
  let shader := r.1
  (WebGL.shaderSource gl r.2 shader source).bind fun _ w =>
  (WebGL.compileShader gl w shader).bind fun _ w =>
  (WebGL.getShaderParameter gl w shader).bind fun status w =>
  if !status then
    (WebGL.getShaderInfoLog gl w shader).bind fun log w =>
    let w := consoleLog w
      [LogArg.str ("Error compiling shader (" ++
          (if type = ShaderType.VERTEX_SHADER then "VERTEX" else "FRAGMENT") ++ "):"),
        LogArg.text log]
    (WebGL.getShaderInfoLog gl w shader).bind fun log w =>
    let w := alert w ("An error occurred compiling the shaders: " ++ jsString log)
    let w := WebGL.deleteShader gl w shader
    Outcome.returned none w
  else
    Outcome.returned shader w

/-- The function `initShaderProgram(gl, vsSource, fsSource)` of `demo.js`. -/
def initShaderProgram (gl : Device σ) (w : World σ) (vsSource fsSource : String) :
    Outcome σ (Option Handle) :=
  (loadShader gl w ShaderType.VERTEX_SHADER vsSource).bind fun vertexShader w =>
  (loadShader gl w ShaderType.FRAGMENT_SHADER fsSource).bind fun fragmentShader w =>
  let p := WebGL.createProgram gl w
  let shaderProgram := p.1
  (WebGL.attachShader gl p.2 shaderProgram vertexShader).bind fun _ w =>
  (WebGL.attachShader gl w shaderProgram fragmentShader).bind fun _ w =>
  (WebGL.linkProgram gl w shaderProgram).bind fun _ w =>
  (WebGL.getProgramParameter gl w shaderProgram).bind fun status w =>
  if !status then
    (WebGL.getProgramInfoLog gl w shaderProgram).bind fun log w =>
    let w := consoleLog w
      [LogArg.str "Unable to initialize the shader program:", LogArg.text log]
    (WebGL.getProgramInfoLog gl w shaderProgram).bind fun log w =>
    let w := alert w ("Unable to initialize the shader program: " ++ jsString log)
    Outcome.returned none w
  else
    Outcome.returned shaderProgram w

/-- The vertex shader source text of `demo.js`. -/
def vsSource : String :=
  "\n    attribute vec4 aVertexPosition;\n    attribute vec4 aVertexColor;\n\n" ++
  "    uniform mat4 uModelViewMatrix;\n    uniform mat4 uProjectionMatrix;\n\n" ++
  "    varying lowp vec4 vColor;\n\n    void main(void) \x7b\n" ++
  "      gl_Position = uProjectionMatrix * uModelViewMatrix * aVertexPosition;\n" ++
  "      vColor = aVertexColor;\n    \x7d\n  "

/-- The fragment shader source text of `demo.js`. -/
def fsSource : String :=
  "\n    precision mediump float;\n    varying lowp vec4 vColor;\n" ++
  "    uniform vec4 uSquareColor;\n\n    void main(void) \x7b\n" ++
  "      gl_FragColor = uSquareColor;\n      gl_FragColor = vColor;\n    \x7d\n  "

/-- Lines 54 to 70 of `main` in `demo.js`: the program is built from the two sources and the
locations of `programInfo` are looked up.  The result also carries `uSquareColorLocation`. -/
def buildProgramInfo (gl : Device σ) (w : World σ) (vsSource fsSource : String) :
    Outcome σ (ProgramInfo × Option Nat) :=
  (initShaderProgram gl w vsSource fsSource).bind fun shaderProgram w =>
  let squareColor : List ℚ := [1, 1, 1, 1]
  (WebGL.getUniformLocation gl w shaderProgram "uSquareColor").bind
    fun uSquareColorLocation w =>
  let w := WebGL.useProgram gl w shaderProgram
  let w := WebGL.uniform4fv gl w uSquareColorLocation squareColor
  (WebGL.getAttribLocation gl w shaderProgram "aVertexPosition").bind fun a1 w =>
  (WebGL.getAttribLocation gl w shaderProgram "aVertexColor").bind fun a2 w =>
  (WebGL.getUniformLocation gl w shaderProgram "uProjectionMatrix").bind fun u1 w =>
  (WebGL.getUniformLocation gl w shaderProgram "uModelViewMatrix").bind fun u2 w =>
  let programInfo : ProgramInfo :=
    { program := shaderProgram
      attribLocations := [("vertexPosition", a1), ("vertexColor", a2)]
      uniformLocations := [("projectionMatrix", u1), ("modelViewMatrix", u2)] }
  Outcome.returned (programInfo, uSquareColorLocation) w

/-- The variables `render` reads and writes: the module variables `cubeRotation` and
`deltaTime`, and `then` of the enclosing `main`. -/
structure Vars where
  cubeRotation : ℚ
  deltaTime : ℚ
  then_ : ℚ
  deriving DecidableEq, Repr

/-- What `main` leaves behind for the frames to come: the variables and the constants
`programInfo` and `buffers` the queued `render` closes over. -/
structure Scene (β : Type) where
  vars : Vars
  programInfo : ProgramInfo
  buffers : β

/-- The function `main()` of `demo.js`, `gl` being what `canvas.getContext("webgl")`
answered and the module variables having their initial value `0`.  The value is `none` when
`main` left through its `return` statement, and the scene it set up when it ran to its
end. -/
def main (gl : Option (Device σ)) (imp : Imports σ β) (w : World σ) :
    Outcome σ (Option (Scene β)) :=
  match gl with
  | none =>
    Outcome.returned none
      (alert w "Unable to initialize WebGL. Your browser may not support it.")
  | some gl =>
    let w := WebGL.clearColor gl w 0 0 0 1
    let w := WebGL.clear gl w
    (buildProgramInfo gl w vsSource fsSource).bind fun b w =>
    let programInfo := b.1
    let w := consoleLog w [LogArg.str "Projection Matrix Location:",
      LogArg.location ((programInfo.uniformLocations.lookup "projectionMatrix").join)]
    let w := consoleLog w [LogArg.str "Model-View Matrix Location:",
      LogArg.location ((programInfo.uniformLocations.lookup "modelViewMatrix").join)]
    let i := initBuffers imp w
    let buffers := i.1
    let w := requestAnimationFrame i.2
    Outcome.returned (some ⟨⟨0, 0, 0⟩, programInfo, buffers⟩) w

/-- The function `render(now)` of `demo.js`, `now` in milliseconds. -/
def render (imp : Imports σ β) (sc : Scene β) (w : World σ) (now : ℚ) :
    Scene β × World σ :=
  let now := now * (1 / 1000)
  let deltaTime := now - sc.vars.then_
  let then_ := now
  let w := drawScene imp w sc.programInfo sc.buffers (some sc.vars.cubeRotation)
  let cubeRotation := sc.vars.cubeRotation + deltaTime
  let w := requestAnimationFrame w
  (⟨⟨cubeRotation, deltaTime, then_⟩, sc.programInfo, sc.buffers⟩, w)

end Demo

/-! ## `src/webgl-demo.js` -/

namespace WebglDemo

variable {σ β : Type}

/-- The function `loadShader(gl, type, source)` of `webgl-demo.js`. -/
def loadShader (gl : Device σ) (w : World σ) (type : ShaderType) (source : String) :
    Outcome σ (Option Handle) :=
  let r := WebGL.createShader gl w type
  let shader := r.1
  (WebGL.shaderSource gl r.2 shader source).bind fun _ w =>
  (WebGL.compileShader gl w shader).bind fun _ w =>
  (WebGL.getShaderParameter gl w shader).bind fun status w =>
  if !status then
    (WebGL.getShaderInfoLog gl w shader).bind fun log w =>
    let w := consoleLog w
      [LogArg.str ("Error compiling shader (" ++
          (if type = ShaderType.VERTEX_SHADER then "VERTEX" else "FRAGMENT") ++ "):"),
        LogArg.text log]
    (WebGL.getShaderInfoLog gl w shader).bind fun log w =>
    let w := alert w ("An error occurred compiling the shaders: " ++ jsString log)
    let w := WebGL.deleteShader gl w shader
    Outcome.returned none w
  else
    Outcome.returned shader w

/-- The function `initShaderProgram(gl, vsSource, fsSource)` of `webgl-demo.js`. -/
def initShaderProgram (gl : Device σ) (w : World σ) (vsSource fsSource : String) :
    Outcome σ (Option Handle) :=
  (loadShader gl w ShaderType.VERTEX_SHADER vsSource).bind fun vertexShader w =>
  (loadShader gl w ShaderType.FRAGMENT_SHADER fsSource).bind fun fragmentShader w =>
  let p := WebGL.createProgram gl w
  let shaderProgram := p.1
  (WebGL.attachShader gl p.2 shaderProgram vertexShader).bind fun _ w =>
  (WebGL.attachShader gl w shaderProgram fragmentShader).bind fun _ w =>
  (WebGL.linkProgram gl w shaderProgram).bind fun _ w =>
  (WebGL.getProgramParameter gl w shaderProgram).bind fun status w =>
  if !status then
    (WebGL.getProgramInfoLog gl w shaderProgram).bind fun log w =>
    let w := consoleLog w
      [LogArg.str "Unable to initialize the shader program:", LogArg.text log]
    (WebGL.getProgramInfoLog gl w shaderProgram).bind fun log w =>
    let w := alert w ("Unable to initialize the shader program: " ++ jsString log)
    Outcome.returned none w
  else
    Outcome.returned shaderProgram w

/-- The vertex shader source text of `webgl-demo.js`. -/
def vsSource : String :=
  "\nattribute vec4 aVertexPosition;\nuniform mat4 uModelViewMatrix;\n" ++
  "uniform mat4 uProjectionMatrix;\nvoid main() \x7b\n" ++
  "  gl_Position = uProjectionMatrix * uModelViewMatrix * aVertexPosition;\n\x7d\n"

/-- The fragment shader source text of `webgl-demo.js`. -/
def fsSource : String :=
  "\n  precision mediump float;\n  uniform vec4 uSquareColor;  \n  void main() \x7b\n" ++
  "        //gl_FragColor = vec4(0.0, 0.0, 0.0, 1.0); // Black\n" ++
  "        gl_FragColor = uSquareColor;\n    \x7d\n"

/-- Lines 46 to 70 of `main` in `webgl-demo.js`: the program is built from the two sources
and the locations of `programInfo` are looked up.  The result also carries
`uSquareColorLocation`. -/
def buildProgramInfo (gl : Device σ) (w : World σ) (vsSource fsSource : String) :
    Outcome σ (ProgramInfo × Option Nat) :=
  (initShaderProgram gl w vsSource fsSource).bind fun shaderProgram w =>
  let squareColor : List ℚ := [1, 1, 1, 1]
  (WebGL.getUniformLocation gl w shaderProgram "uSquareColor").bind
    fun uSquareColorLocation w =>
  let w := WebGL.useProgram gl w shaderProgram
  let w := WebGL.uniform4fv gl w uSquareColorLocation squareColor
  (WebGL.getAttribLocation gl w shaderProgram "aVertexPosition").bind fun a1 w =>
  (WebGL.getUniformLocation gl w shaderProgram "uProjectionMatrix").bind fun u1 w =>
  (WebGL.getUniformLocation gl w shaderProgram "uModelViewMatrix").bind fun u2 w =>
  let programInfo : ProgramInfo :=
    { program := shaderProgram
      attribLocations := [("vertexPosition", a1)]
      uniformLocations := [("projectionMatrix", u1), ("modelViewMatrix", u2)] }
  Outcome.returned (programInfo, uSquareColorLocation) w

/-- The function `main()` of `webgl-demo.js`, `gl` being what `canvas.getContext("webgl")`
answered.  The value is `none` when `main` left through its `return` statement, and the
`programInfo` it drew with when it ran to its end. -/
def main (gl : Option (Device σ)) (imp : Imports σ β) (w : World σ) :
    Outcome σ (Option ProgramInfo) :=
  match gl with
  | none =>
    Outcome.returned none
      (alert w "Unable to initialize WebGL. Your browser may not support it.")
  | some gl =>
    let w := WebGL.clearColor gl w 0 0 0 1
    let w := WebGL.clear gl w
    (buildProgramInfo gl w vsSource fsSource).bind fun b w =>
    let programInfo := b.1
    let w := consoleLog w [LogArg.str "Projection Matrix Location:",
      LogArg.location ((programInfo.uniformLocations.lookup "projectionMatrix").join)]
    let w := consoleLog w [LogArg.str "Model-View Matrix Location:",
      LogArg.location ((programInfo.uniformLocations.lookup "modelViewMatrix").join)]
    let i := initBuffers imp w
    let buffers := i.1
    let w := drawScene imp i.2 programInfo buffers none
    Outcome.returned (some programInfo) w

end WebglDemo

/-! ## The reference device -/

/-- A shader object of the reference device. -/
structure ShaderObj where
  id : Handle
  type : ShaderType
  source : String
  compileStatus : Bool
  infoLog : String
  deleteStatus : Bool
  deriving DecidableEq, Repr

/-- A program object of the reference device: at most one attached shader of each type, the
outcome of the last link, and the pair of sources the linked executable was made from. -/
structure ProgramObj where
  id : Handle
  vertexShader : Option Handle
  fragmentShader : Option Handle
  linkStatus : Bool
  infoLog : String
  linked : Option (String × String)
  deriving DecidableEq, Repr

/-- What the WebGL implementation decides: the verdict and log of the shader compiler, the
verdict and log of the linker for a compiled vertex and fragment source, the log of a link
that lacks a compiled stage, and the locations of the names of a linked executable. -/
structure Driver where
  compile : ShaderType → String → Bool × String
  link : String → String → Bool × String
  incompleteLog : String
  attribLocation : String → String → String → Int
  uniformLocation : String → String → String → Option Nat

/-- The state of the reference device. -/
structure MockGL where
  shaders : List ShaderObj
  programs : List ProgramObj
  next : Handle
  currentProgram : Option Handle
  clearColorValue : ℚ × ℚ × ℚ × ℚ
  colorBuffer : ℚ × ℚ × ℚ × ℚ
  uniforms : List (Handle × Nat × List ℚ)

/-- The largest number of a list, `0` for the empty list. -/
def maxOf (l : List Nat) : Nat := l.foldr max 0

/-- The entry with key `h`. -/
def lookup {α : Type} (key : α → Handle) (l : List α) (h : Handle) : Option α :=
  l.find? (fun x => key x == h)

/-- The list with `f` applied to the entries with key `h`. -/
def modify {α : Type} (key : α → Handle) (l : List α) (h : Handle) (f : α → α) : List α :=
  l.map (fun x => if key x = h then f x else x)

/-- The list without the entries with key `h`. -/
def remove {α : Type} (key : α → Handle) (l : List α) (h : Handle) : List α :=
  l.filter (fun x => key x != h)

namespace MockGL

/-- Every handle the state mentions. -/
def handles (s : MockGL) : List Handle :=
  s.shaders.map ShaderObj.id ++ (s.programs.map ProgramObj.id ++
    (s.programs.filterMap ProgramObj.vertexShader ++
      s.programs.filterMap ProgramObj.fragmentShader))

/-- The handle of the next object: never used before and mentioned nowhere in the state. -/
def fresh (s : MockGL) : Handle := max s.next (maxOf s.handles + 1)

/-- Whether shader `h` is attached to some program. -/
def isAttached (s : MockGL) (h : Handle) : Bool :=
  s.programs.any (fun p => p.vertexShader == some h || p.fragmentShader == some h)

/-- Reference `clearColor`. -/
def clearColor (s : MockGL) (r g b a : ℚ) : MockGL :=
  { s with clearColorValue := (r, g, b, a) }

/-- Reference `clear` of the colour buffer. -/
def clear (s : MockGL) : MockGL :=
  { s with colorBuffer := s.clearColorValue }

/-- Reference `createShader`: a new shader object with an empty source. -/
def createShader (s : MockGL) (type : ShaderType) : Option Handle × MockGL :=
  (some s.fresh,
    { s with
      shaders := s.shaders ++ [⟨s.fresh, type, "", false, "", false⟩]
      next := s.fresh + 1 })

/-- Reference `shaderSource`. -/
def shaderSource (s : MockGL) (h : Handle) (source : String) : MockGL :=
  { s with
    shaders := modify ShaderObj.id s.shaders h (fun o => { o with source := source }) }

/-- Reference `compileShader`: the driver compiles the current source of the shader. -/
def compileShader (drv : Driver) (s : MockGL) (h : Handle) : MockGL :=
  { s with
    shaders := modify ShaderObj.id s.shaders h (fun o =>
      { o with
        compileStatus := (drv.compile o.type o.source).1
        infoLog := (drv.compile o.type o.source).2 }) }

/-- Reference `getShaderParameter` for `COMPILE_STATUS`. -/
def getShaderParameter (s : MockGL) (h : Handle) : Bool × MockGL :=
  match lookup ShaderObj.id s.shaders h with
  | none => (false, s)
  | some o => (o.compileStatus, s)

/-- Reference `getShaderInfoLog`. -/
def getShaderInfoLog (s : MockGL) (h : Handle) : Option String × MockGL :=
  match lookup ShaderObj.id s.shaders h with
  | none => (none, s)
  | some o => (some o.infoLog, s)

/-- Reference `deleteShader`: an attached shader is only flagged, any other is freed. -/
def deleteShader (s : MockGL) (shader : Option Handle) : MockGL :=
  match shader with
  | none => s
  | some h =>
    if s.isAttached h then
      { s with
        shaders := modify ShaderObj.id s.shaders h (fun o => { o with deleteStatus := true }) }
    else
      { s with shaders := remove ShaderObj.id s.shaders h }

/-- Reference `createProgram`: a new program object with nothing attached. -/
def createProgram (s : MockGL) : Option Handle × MockGL :=
  (some s.fresh,
    { s with
      programs := s.programs ++ [⟨s.fresh, none, none, false, "", none⟩]
      next := s.fresh + 1 })

/-- Reference `attachShader`: nothing happens unless both objects exist and the program has
no shader of that type yet. -/
def attachShader (s : MockGL) (program shader : Handle) : MockGL :=
  match lookup ProgramObj.id s.programs program, lookup ShaderObj.id s.shaders shader with
  | some p, some o =>
    match o.type with
    | ShaderType.VERTEX_SHADER =>
      if p.vertexShader = none then
        { s with
          programs := modify ProgramObj.id s.programs p.id
            (fun q => { q with vertexShader := some o.id }) }
      else s
    | ShaderType.FRAGMENT_SHADER =>
      if p.fragmentShader = none then
        { s with
          programs := modify ProgramObj.id s.programs p.id
            (fun q => { q with fragmentShader := some o.id }) }
      else s
  | _, _ => s

/-- The outcome of linking program `p` in state `s`: the link fails unless a compiled
shader of each type is attached, and is the verdict of the driver otherwise. -/
def linkResult (drv : Driver) (s : MockGL) (p : ProgramObj) :
    Bool × String × Option (String × String) :=
  match p.vertexShader.bind (lookup ShaderObj.id s.shaders),
      p.fragmentShader.bind (lookup ShaderObj.id s.shaders) with
  | some v, some f =>
    if v.compileStatus && f.compileStatus then
      ((drv.link v.source f.source).1, (drv.link v.source f.source).2,
        if (drv.link v.source f.source).1 then some (v.source, f.source) else none)
    else (false, drv.incompleteLog, none)
  | _, _ => (false, drv.incompleteLog, none)

/-- Reference `linkProgram`. -/
def linkProgram (drv : Driver) (s : MockGL) (h : Handle) : MockGL :=
  { s with
    programs := modify ProgramObj.id s.programs h (fun q =>
      { q with
        linkStatus := (linkResult drv s q).1
        infoLog := (linkResult drv s q).2.1
        linked := (linkResult drv s q).2.2 }) }

/-- Reference `getProgramParameter` for `LINK_STATUS`. -/
def getProgramParameter (s : MockGL) (program : Handle) : Bool × MockGL :=
  match lookup ProgramObj.id s.programs program with
  | none => (false, s)
  | some p => (p.linkStatus, s)

/-- Reference `getProgramInfoLog`. -/
def getProgramInfoLog (s : MockGL) (program : Handle) : Option String × MockGL :=
  match lookup ProgramObj.id s.programs program with
  | none => (none, s)
  | some p => (some p.infoLog, s)

/-- Reference `getUniformLocation`: `null` unless the program is linked. -/
def getUniformLocation (drv : Driver) (s : MockGL) (program : Handle)
    (name : String) : Option Nat × MockGL :=
  match (lookup ProgramObj.id s.programs program).bind ProgramObj.linked with
  | none => (none, s)
  | some src => (drv.uniformLocation src.1 src.2 name, s)

/-- Reference `useProgram`: `null` unbinds, a linked program is made current, anything else
is an error and changes nothing. -/
def useProgram (s : MockGL) (program : Option Handle) : MockGL :=
  match program with
  | none => { s with currentProgram := none }
  | some h =>
    match lookup ProgramObj.id s.programs h with
    | none => s
    | some p => if p.linkStatus then { s with currentProgram := some h } else s

/-- Reference `uniform4fv`: a `null` location is ignored silently. -/
def uniform4fv (s : MockGL) (location : Option Nat) (value : List ℚ) : MockGL :=
  match location, s.currentProgram with
  | some l, some p => { s with uniforms := (p, l, value) :: s.uniforms }
  | _, _ => s

/-- Reference `getAttribLocation`: `-1` unless the program is linked. -/
def getAttribLocation (drv : Driver) (s : MockGL) (program : Handle)
    (name : String) : Int × MockGL :=
  match (lookup ProgramObj.id s.programs program).bind ProgramObj.linked with
  | none => (-1, s)
  | some src => (drv.attribLocation src.1 src.2 name, s)

/-- The state of a device on which nothing has been created yet. -/
def empty : MockGL := ⟨[], [], 1, none, (0, 0, 0, 0), (0, 0, 0, 0), []⟩

end MockGL

/-- The reference device with the WebGL implementation `drv`. -/
def mockGL (drv : Driver) : Device MockGL where
  clearColor := MockGL.clearColor
  clear := MockGL.clear
  createShader := MockGL.createShader
  shaderSource := MockGL.shaderSource
  compileShader := MockGL.compileShader drv
  getShaderParameter := MockGL.getShaderParameter
  getShaderInfoLog := MockGL.getShaderInfoLog
  deleteShader := MockGL.deleteShader
  createProgram := MockGL.createProgram
  attachShader := MockGL.attachShader
  linkProgram := MockGL.linkProgram drv
  getProgramParameter := MockGL.getProgramParameter
  getProgramInfoLog := MockGL.getProgramInfoLog
  getUniformLocation := MockGL.getUniformLocation drv
  useProgram := MockGL.useProgram
  uniform4fv := MockGL.uniform4fv
  getAttribLocation := MockGL.getAttribLocation drv

/-- The handles of the allocated shader objects. -/
def allocatedShaders (s : MockGL) : List Handle := s.shaders.map ShaderObj.id

/-- The handles of the allocated program objects. -/
def allocatedPrograms (s : MockGL) : List Handle := s.programs.map ProgramObj.id

/-! ## What the scripts do on the reference device

The event lists below are the right-hand sides of the equations proved further down for
`loadShader` and `initShaderProgram` run on `mockGL`. -/

/-- The events of a `loadShader` call whose shader `h` compiled. -/
def loadOkEvents (type : ShaderType) (source : String) (h : Handle) : List Event :=
  [Event.createShader type (some h), Event.shaderSource h source,
    Event.compileShader h, Event.getShaderParameter h true]

/-- The events of a `loadShader` call whose shader `h` did not compile, with log `log`. -/
def loadFailEvents (type : ShaderType) (source : String) (h : Handle) (log : String) :
    List Event :=
  [Event.createShader type (some h), Event.shaderSource h source,
    Event.compileShader h, Event.getShaderParameter h false,
    Event.getShaderInfoLog h (some log),
    Event.consoleLog [LogArg.str ("Error compiling shader (" ++
        (if type = ShaderType.VERTEX_SHADER then "VERTEX" else "FRAGMENT") ++ "):"),
      LogArg.text (some log)],
    Event.getShaderInfoLog h (some log),
    Event.alert ("An error occurred compiling the shaders: " ++ log),
    Event.deleteShader (some h)]

/-- The events of a `loadShader` call on the reference device. -/
def loadEvents (drv : Driver) (type : ShaderType) (source : String) (h : Handle) :
    List Event :=
  if (drv.compile type source).1 then loadOkEvents type source h
  else loadFailEvents type source h (drv.compile type source).2

/-- The events of the part of `initShaderProgram` that follows `linkProgram`, for program
`p` and a link with verdict `ok` and log `log`. -/
def linkReportEvents (p : Handle) (ok : Bool) (log : String) : List Event :=
  Event.getProgramParameter p ok ::
    (if ok then []
      else
        [Event.getProgramInfoLog p (some log),
          Event.consoleLog [LogArg.str "Unable to initialize the shader program:",
            LogArg.text (some log)],
          Event.getProgramInfoLog p (some log),
          Event.alert ("Unable to initialize the shader program: " ++ log)])

/-- Whether the build from `vs` and `fs` succeeds on the reference device: both stages
compile and the linker accepts them. -/
def builds (drv : Driver) (vs fs : String) : Bool :=
  (drv.compile ShaderType.VERTEX_SHADER vs).1 &&
    ((drv.compile ShaderType.FRAGMENT_SHADER fs).1 && (drv.link vs fs).1)

/-! ## Frames of `demo.js` -/

/-- The scene and world after the browser has fired the queued `render` once per timestamp
of `ts`, in order. -/
def Demo.frames {σ β : Type} (imp : Imports σ β) (sc : Demo.Scene β) (w : World σ) :
    List ℚ → Demo.Scene β × World σ
  | [] => (sc, w)
  | now :: rest =>
    Demo.frames imp (Demo.render imp sc w now).1 (Demo.render imp sc w now).2 rest

/-- The fourth argument of every `drawScene` call among the events, in order. -/
def drawRotations : List Event → List (Option ℚ)
  | [] => []
  | Event.drawScene _ rotation :: rest => rotation :: drawRotations rest
  | _ :: rest => drawRotations rest

/-! ## Concrete WebGL implementations -/

/-- The attribute locations of the concrete implementations below. -/
def sampleAttribLocation (name : String) : Int :=
  if name = "aVertexPosition" then 0 else if name = "aVertexColor" then 1 else -1

/-- The uniform locations of the concrete implementations below. -/
def sampleUniformLocation (name : String) : Option Nat :=
  if name = "uSquareColor" then some 0
  else if name = "uProjectionMatrix" then some 1
  else if name = "uModelViewMatrix" then some 2
  else none

/-- An implementation that compiles and links everything. -/
def acceptAll : Driver where
  compile := fun _ _ => (true, "")
  link := fun _ _ => (true, "")
  incompleteLog := "missing shader"
  attribLocation := fun _ _ name => sampleAttribLocation name
  uniformLocation := fun _ _ name => sampleUniformLocation name

/-- An implementation whose compiler rejects every vertex shader. -/
def rejectVertex : Driver where
  compile := fun type _ =>
    match type with
    | ShaderType.VERTEX_SHADER => (false, "ERROR: 0:1: syntax error")
    | ShaderType.FRAGMENT_SHADER => (true, "")
  link := fun _ _ => (true, "")
  incompleteLog := "missing shader"
  attribLocation := fun _ _ name => sampleAttribLocation name
  uniformLocation := fun _ _ name => sampleUniformLocation name

/-- An implementation whose compiler rejects every fragment shader. -/
def rejectFragment : Driver where
  compile := fun type _ =>
    match type with
    | ShaderType.VERTEX_SHADER => (true, "")
    | ShaderType.FRAGMENT_SHADER => (false, "ERROR: 0:2: undeclared identifier")
  link := fun _ _ => (true, "")
  incompleteLog := "missing shader"
  attribLocation := fun _ _ name => sampleAttribLocation name
  uniformLocation := fun _ _ name => sampleUniformLocation name

/-- An implementation that compiles everything and whose linker rejects every pair. -/
def rejectLink : Driver where
  compile := fun _ _ => (true, "")
  link := fun _ _ => (false, "varying vColor is not written by the vertex shader")
  incompleteLog := "missing shader"
  attribLocation := fun _ _ name => sampleAttribLocation name
  uniformLocation := fun _ _ name => sampleUniformLocation name

/-- Imported functions that leave the device alone and return no buffers. -/
def idleImports : Imports MockGL Unit where
  initBuffers := fun s => ((), s)
  drawScene := fun s _ _ _ => s

/-! ## Lists keyed by handles -/

theorem le_maxOf {l : List Nat} {h : Nat} (hm : h ∈ l) : h ≤ maxOf l := by
  induction l with
  | nil => simp at hm
  | cons a t ih =>
    simp only [maxOf, List.foldr_cons] at ih ⊢
    rcases List.mem_cons.mp hm with rfl | hmem
    · exact le_max_left _ _
    · exact le_trans (ih hmem) (le_max_right _ _)

theorem lookup_append_fresh {α : Type} (key : α → Handle) (l l' : List α) (h : Handle)
    (hl : ∀ x ∈ l, key x ≠ h) : lookup key (l ++ l') h = lookup key l' h := by
  induction l with
  | nil => rfl
  | cons a t ih =>
    have ha : key a ≠ h := hl a (List.mem_cons_self _ _)
    have ht : ∀ x ∈ t, key x ≠ h := fun x hx => hl x (List.mem_cons_of_mem _ hx)
    have hb : (key a == h) = false := by simpa using ha
    simp only [lookup, List.cons_append, List.find?_cons] at ih ⊢
    rw [hb]
    exact ih ht

theorem modify_append_fresh {α : Type} (key : α → Handle) (l l' : List α) (h : Handle)
    (f : α → α) (hl : ∀ x ∈ l, key x ≠ h) :
    modify key (l ++ l') h f = l ++ modify key l' h f := by
  induction l with
  | nil => rfl
  | cons a t ih =>
    have ha : key a ≠ h := hl a (List.mem_cons_self _ _)
    have ht : ∀ x ∈ t, key x ≠ h := fun x hx => hl x (List.mem_cons_of_mem _ hx)
    simp only [modify, List.cons_append, List.map_cons] at ih ⊢
    simp [ha, ih ht]

theorem remove_append_fresh {α : Type} (key : α → Handle) (l l' : List α) (h : Handle)
    (hl : ∀ x ∈ l, key x ≠ h) : remove key (l ++ l') h = l ++ remove key l' h := by
  induction l with
  | nil => rfl
  | cons a t ih =>
    have ha : key a ≠ h := hl a (List.mem_cons_self _ _)
    have ht : ∀ x ∈ t, key x ≠ h := fun x hx => hl x (List.mem_cons_of_mem _ hx)
    simp only [remove, List.cons_append] at ih ⊢
    simp [ha, ih ht]

theorem lookup_nil {α : Type} (key : α → Handle) (h : Handle) :
    lookup key ([] : List α) h = none := rfl

theorem lookup_cons_eq {α : Type} (key : α → Handle) (a : α) (l : List α) (h : Handle)
    (ha : key a = h) : lookup key (a :: l) h = some a := by
  simp [lookup, List.find?_cons, ha]

theorem lookup_cons_ne {α : Type} (key : α → Handle) (a : α) (l : List α) (h : Handle)
    (ha : key a ≠ h) : lookup key (a :: l) h = lookup key l h := by
  have hb : (key a == h) = false := by simpa using ha
  simp only [lookup, List.find?_cons]
  rw [hb]

theorem modify_nil {α : Type} (key : α → Handle) (h : Handle) (f : α → α) :
    modify key ([] : List α) h f = [] := rfl

theorem modify_cons {α : Type} (key : α → Handle) (a : α) (l : List α) (h : Handle)
    (f : α → α) :
    modify key (a :: l) h f = (if key a = h then f a else a) :: modify key l h f := rfl

theorem remove_nil {α : Type} (key : α → Handle) (h : Handle) :
    remove key ([] : List α) h = [] := rfl

theorem remove_cons_eq {α : Type} (key : α → Handle) (a : α) (l : List α) (h : Handle)
    (ha : key a = h) : remove key (a :: l) h = remove key l h := by
  simp [remove, ha]

namespace MockGL

theorem maxOf_handles_lt_fresh (s : MockGL) : maxOf s.handles < s.fresh :=
  lt_of_lt_of_le (Nat.lt_succ_self _) (le_max_right _ _)

theorem shader_lt_fresh (s : MockGL) (x : ShaderObj) (hx : x ∈ s.shaders) :
    x.id < s.fresh := by
  have h : x.id ∈ s.handles := by
    simp only [handles, List.mem_append, List.mem_map]
    exact Or.inl ⟨x, hx, rfl⟩
  exact lt_of_le_of_lt (le_maxOf h) (maxOf_handles_lt_fresh s)

theorem program_lt_fresh (s : MockGL) (p : ProgramObj) (hp : p ∈ s.programs) :
    p.id < s.fresh := by
  have h : p.id ∈ s.handles := by
    simp only [handles, List.mem_append, List.mem_map]
    exact Or.inr (Or.inl ⟨p, hp, rfl⟩)
  exact lt_of_le_of_lt (le_maxOf h) (maxOf_handles_lt_fresh s)

theorem vertexShader_lt_fresh (s : MockGL) (p : ProgramObj) (hp : p ∈ s.programs)
    (h : Handle) (hv : p.vertexShader = some h) : h < s.fresh := by
  have hm : h ∈ s.handles := by
    simp only [handles, List.mem_append, List.mem_filterMap]
    exact Or.inr (Or.inr (Or.inl ⟨p, hp, hv⟩))
  exact lt_of_le_of_lt (le_maxOf hm) (maxOf_handles_lt_fresh s)

theorem fragmentShader_lt_fresh (s : MockGL) (p : ProgramObj) (hp : p ∈ s.programs)
    (h : Handle) (hv : p.fragmentShader = some h) : h < s.fresh := by
  have hm : h ∈ s.handles := by
    simp only [handles, List.mem_append, List.mem_filterMap]
    exact Or.inr (Or.inr (Or.inr ⟨p, hp, hv⟩))
  exact lt_of_le_of_lt (le_maxOf hm) (maxOf_handles_lt_fresh s)

end MockGL

theorem maxOf_lt {l : List Nat} {n : Nat} (hn : 0 < n) (hl : ∀ x ∈ l, x < n) :
    maxOf l < n := by
  induction l with
  | nil => simpa [maxOf] using hn
  | cons a t ih =>
    have ha : a < n := hl a (List.mem_cons_self _ _)
    have ht : maxOf t < n := ih (fun x hx => hl x (List.mem_cons_of_mem _ hx))
    simp only [maxOf, List.foldr_cons] at ht ⊢
    exact max_lt ha ht

theorem MockGL.fresh_pos (s : MockGL) : 0 < s.fresh :=
  lt_of_lt_of_le (Nat.succ_pos _) (le_max_right _ _)

/-- After shaders and programs with handles below `n` were added, and `next` was set to `n`,
the next fresh handle is `n`. -/
theorem MockGL.fresh_extend (s : MockGL) (sh : List ShaderObj) (pr : List ProgramObj)
    (n : Handle) (c : Option Handle) (cc cb : ℚ × ℚ × ℚ × ℚ)
    (u : List (Handle × Nat × List ℚ)) (hn : s.fresh ≤ n)
    (hsh : ∀ x ∈ sh, x.id < n)
    (hpr : ∀ p ∈ pr, p.id < n ∧ (∀ h, p.vertexShader = some h → h < n) ∧
      (∀ h, p.fragmentShader = some h → h < n)) :
    MockGL.fresh ⟨s.shaders ++ sh, s.programs ++ pr, n, c, cc, cb, u⟩ = n := by
  have hpos : 0 < n := lt_of_lt_of_le (MockGL.fresh_pos s) hn
  have hall : ∀ x ∈ MockGL.handles ⟨s.shaders ++ sh, s.programs ++ pr, n, c, cc, cb, u⟩,
      x < n := by
    intro x hx
    simp only [MockGL.handles, List.mem_append, List.mem_map, List.mem_filterMap] at hx
    rcases hx with (⟨o, ho | ho, rfl⟩) | (⟨p, hp | hp, rfl⟩) | (⟨p, hp | hp, hv⟩) |
      (⟨p, hp | hp, hv⟩)
    · exact lt_of_lt_of_le (MockGL.shader_lt_fresh s o ho) hn
    · exact hsh o ho
    · exact lt_of_lt_of_le (MockGL.program_lt_fresh s p hp) hn
    · exact (hpr p hp).1
    · exact lt_of_lt_of_le (MockGL.vertexShader_lt_fresh s p hp x hv) hn
    · exact (hpr p hp).2.1 x hv
    · exact lt_of_lt_of_le (MockGL.fragmentShader_lt_fresh s p hp x hv) hn
    · exact (hpr p hp).2.2 x hv
  have hm := maxOf_lt hpos hall
  unfold MockGL.fresh
  exact max_eq_left (Nat.succ_le_of_lt hm)

theorem not_attached_fresh (s : MockGL) (h : Handle) (hh : s.fresh ≤ h) :
    (s.programs.any (fun p => p.vertexShader == some h || p.fragmentShader == some h))
      = false := by
  rw [List.any_eq_false]
  intro p hp
  have h1 : p.vertexShader ≠ some h := fun hv =>
    absurd (MockGL.vertexShader_lt_fresh s p hp h hv) (not_lt.mpr hh)
  have h2 : p.fragmentShader ≠ some h := fun hv =>
    absurd (MockGL.fragmentShader_lt_fresh s p hp h hv) (not_lt.mpr hh)
  simp [h1, h2]

/-! ## `loadShader` and `initShaderProgram` on the reference device -/

theorem mock_loadShader_ok (drv : Driver) (s : MockGL) (ev : List Event) (type : ShaderType)
    (source : String) (hc : (drv.compile type source).1 = true) :
    Demo.loadShader (mockGL drv) ⟨s, ev⟩ type source =
      Outcome.returned (some s.fresh)
        ⟨{ s with
            shaders := s.shaders ++
              [⟨s.fresh, type, source, true, (drv.compile type source).2, false⟩]
            next := s.fresh + 1 },
          ev ++ loadOkEvents type source s.fresh⟩ := by
  have hf : ∀ x ∈ s.shaders, ShaderObj.id x ≠ s.fresh := fun x hx =>
    Nat.ne_of_lt (MockGL.shader_lt_fresh s x hx)
  simp [Demo.loadShader, Outcome.bind, WebGL.createShader, WebGL.shaderSource,
    WebGL.compileShader, WebGL.getShaderParameter, mockGL, MockGL.createShader,
    MockGL.shaderSource, MockGL.compileShader, MockGL.getShaderParameter,
    modify_append_fresh _ _ _ _ _ hf, lookup_append_fresh _ _ _ _ hf, modify_cons,
    modify_nil, lookup_cons_eq, hc, loadOkEvents]

theorem mock_loadShader_fail (drv : Driver) (s : MockGL) (ev : List Event)
    (type : ShaderType) (source : String) (hc : (drv.compile type source).1 = false) :
    Demo.loadShader (mockGL drv) ⟨s, ev⟩ type source =
      Outcome.returned none
        ⟨{ s with next := s.fresh + 1 },
          ev ++ loadFailEvents type source s.fresh (drv.compile type source).2⟩ := by
  have hf : ∀ x ∈ s.shaders, ShaderObj.id x ≠ s.fresh := fun x hx =>
    Nat.ne_of_lt (MockGL.shader_lt_fresh s x hx)
  have ha := not_attached_fresh s s.fresh (le_refl _)
  simp [Demo.loadShader, Outcome.bind, WebGL.createShader, WebGL.shaderSource,
    WebGL.compileShader, WebGL.getShaderParameter, WebGL.getShaderInfoLog,
    WebGL.deleteShader, consoleLog, alert, mockGL, MockGL.createShader, MockGL.shaderSource,
    MockGL.compileShader, MockGL.getShaderParameter, MockGL.getShaderInfoLog,
    MockGL.deleteShader, MockGL.isAttached, ha, jsString,
    modify_append_fresh _ _ _ _ _ hf, lookup_append_fresh _ _ _ _ hf,
    remove_append_fresh _ _ _ _ hf, modify_cons, modify_nil, lookup_cons_eq,
    remove_cons_eq, remove_nil, hc, loadFailEvents]

theorem MockGL.fresh_after_none (s : MockGL) (c : Option Handle) (cc cb : ℚ × ℚ × ℚ × ℚ)
    (u : List (Handle × Nat × List ℚ)) :
    MockGL.fresh ⟨s.shaders, s.programs, s.fresh + 1, c, cc, cb, u⟩ = s.fresh + 1 := by
  have := MockGL.fresh_extend s [] [] (s.fresh + 1) c cc cb u (Nat.le_succ _)
    (by simp) (by simp)
  simpa using this

theorem MockGL.fresh_after_shader (s : MockGL) (t : ShaderType) (src : String) (cs : Bool)
    (il : String) (ds : Bool) (c : Option Handle) (cc cb : ℚ × ℚ × ℚ × ℚ)
    (u : List (Handle × Nat × List ℚ)) :
    MockGL.fresh ⟨s.shaders ++ [⟨s.fresh, t, src, cs, il, ds⟩], s.programs, s.fresh + 1,
      c, cc, cb, u⟩ = s.fresh + 1 := by
  have := MockGL.fresh_extend s [⟨s.fresh, t, src, cs, il, ds⟩] [] (s.fresh + 1) c cc cb u
    (Nat.le_succ _) (by simp) (by simp)
  simpa using this

theorem MockGL.fresh_after_none_none (s : MockGL) (c : Option Handle)
    (cc cb : ℚ × ℚ × ℚ × ℚ) (u : List (Handle × Nat × List ℚ)) :
    MockGL.fresh ⟨s.shaders, s.programs, s.fresh + 1 + 1, c, cc, cb, u⟩ = s.fresh + 2 := by
  have := MockGL.fresh_extend s [] [] (s.fresh + 2) c cc cb u (Nat.le_add_right _ _)
    (by simp) (by simp)
  simpa using this

theorem MockGL.fresh_after_shader_none (s : MockGL) (t : ShaderType) (src : String)
    (cs : Bool) (il : String) (ds : Bool) (c : Option Handle) (cc cb : ℚ × ℚ × ℚ × ℚ)
    (u : List (Handle × Nat × List ℚ)) :
    MockGL.fresh ⟨s.shaders ++ [⟨s.fresh, t, src, cs, il, ds⟩], s.programs,
      s.fresh + 1 + 1, c, cc, cb, u⟩ = s.fresh + 2 := by
  have := MockGL.fresh_extend s [⟨s.fresh, t, src, cs, il, ds⟩] [] (s.fresh + 2) c cc cb u
    (Nat.le_add_right _ _) (by simp) (by simp)
  simpa using this

theorem MockGL.fresh_after_none_shader (s : MockGL) (t : ShaderType) (src : String)
    (cs : Bool) (il : String) (ds : Bool) (c : Option Handle) (cc cb : ℚ × ℚ × ℚ × ℚ)
    (u : List (Handle × Nat × List ℚ)) :
    MockGL.fresh ⟨s.shaders ++ [⟨s.fresh + 1, t, src, cs, il, ds⟩], s.programs,
      s.fresh + 1 + 1, c, cc, cb, u⟩ = s.fresh + 2 := by
  have := MockGL.fresh_extend s [⟨s.fresh + 1, t, src, cs, il, ds⟩] [] (s.fresh + 2)
    c cc cb u (Nat.le_add_right _ _) (by simp) (by simp)
  simpa using this

theorem MockGL.fresh_after_shader_shader (s : MockGL) (t : ShaderType) (src : String)
    (cs : Bool) (il : String) (ds : Bool) (t2 : ShaderType) (src2 : String) (cs2 : Bool)
    (il2 : String) (ds2 : Bool) (c : Option Handle) (cc cb : ℚ × ℚ × ℚ × ℚ)
    (u : List (Handle × Nat × List ℚ)) :
    MockGL.fresh ⟨s.shaders ++ [⟨s.fresh, t, src, cs, il, ds⟩,
        ⟨s.fresh + 1, t2, src2, cs2, il2, ds2⟩], s.programs, s.fresh + 1 + 1,
      c, cc, cb, u⟩ = s.fresh + 2 := by
  have := MockGL.fresh_extend s [⟨s.fresh, t, src, cs, il, ds⟩,
    ⟨s.fresh + 1, t2, src2, cs2, il2, ds2⟩] [] (s.fresh + 2) c cc cb u
    (Nat.le_add_right _ _) (by simp) (by simp)
  simpa using this

/-- On the reference device, when the vertex shader does not compile `initShaderProgram`
ends with the `TypeError` of `attachShader(shaderProgram, null)`. -/
theorem mock_initShaderProgram_vertexFail (drv : Driver) (s : MockGL) (ev : List Event)
    (vs fs : String) (hv : (drv.compile ShaderType.VERTEX_SHADER vs).1 = false) :
    Demo.initShaderProgram (mockGL drv) ⟨s, ev⟩ vs fs =
      Outcome.threw
        ⟨{ s with
            shaders := s.shaders ++
              (if (drv.compile ShaderType.FRAGMENT_SHADER fs).1 then
                [⟨s.fresh + 1, ShaderType.FRAGMENT_SHADER, fs, true,
                  (drv.compile ShaderType.FRAGMENT_SHADER fs).2, false⟩]
              else [])
            programs := s.programs ++ [⟨s.fresh + 2, none, none, false, "", none⟩]
            next := s.fresh + 3 },
          ev ++ (loadFailEvents ShaderType.VERTEX_SHADER vs s.fresh
              (drv.compile ShaderType.VERTEX_SHADER vs).2 ++
            loadEvents drv ShaderType.FRAGMENT_SHADER fs (s.fresh + 1) ++
            [Event.createProgram (some (s.fresh + 2)), Event.typeError "attachShader"])⟩ := by
  unfold Demo.initShaderProgram
  simp only [mock_loadShader_fail drv s ev _ _ hv, Outcome.bind]
  rcases hf : (drv.compile ShaderType.FRAGMENT_SHADER fs).1
  · simp only [mock_loadShader_fail drv _ _ _ _ hf, Outcome.bind, MockGL.fresh_after_none]
    simp [WebGL.createProgram, WebGL.attachShader, throwTypeError, mockGL,
      MockGL.createProgram, MockGL.fresh_after_none_none, loadEvents, hf]
  · simp only [mock_loadShader_ok drv _ _ _ _ hf, Outcome.bind, MockGL.fresh_after_none]
    simp [WebGL.createProgram, WebGL.attachShader, throwTypeError, mockGL,
      MockGL.createProgram, MockGL.fresh_after_none_shader, loadEvents, hf]

/-- On the reference device, when the vertex shader compiles and the fragment shader does
not, `initShaderProgram` attaches the vertex shader and ends with the `TypeError` of
`attachShader(shaderProgram, null)`. -/
theorem mock_initShaderProgram_fragmentFail (drv : Driver) (s : MockGL) (ev : List Event)
    (vs fs : String) (hv : (drv.compile ShaderType.VERTEX_SHADER vs).1 = true)
    (hf : (drv.compile ShaderType.FRAGMENT_SHADER fs).1 = false) :
    Demo.initShaderProgram (mockGL drv) ⟨s, ev⟩ vs fs =
      Outcome.threw
        ⟨{ s with
            shaders := s.shaders ++
              [⟨s.fresh, ShaderType.VERTEX_SHADER, vs, true,
                (drv.compile ShaderType.VERTEX_SHADER vs).2, false⟩]
            programs := s.programs ++ [⟨s.fresh + 2, some s.fresh, none, false, "", none⟩]
            next := s.fresh + 3 },
          ev ++ (loadOkEvents ShaderType.VERTEX_SHADER vs s.fresh ++
            loadFailEvents ShaderType.FRAGMENT_SHADER fs (s.fresh + 1)
              (drv.compile ShaderType.FRAGMENT_SHADER fs).2 ++
            [Event.createProgram (some (s.fresh + 2)),
              Event.attachShader (s.fresh + 2) s.fresh,
              Event.typeError "attachShader"])⟩ := by
  have hs0 : ∀ x ∈ s.shaders, ShaderObj.id x ≠ s.fresh := fun x hx =>
    Nat.ne_of_lt (MockGL.shader_lt_fresh s x hx)
  have hp2 : ∀ x ∈ s.programs, ProgramObj.id x ≠ s.fresh + 2 := fun x hx =>
    Nat.ne_of_lt (Nat.lt_add_right 2 (MockGL.program_lt_fresh s x hx))
  unfold Demo.initShaderProgram
  simp only [mock_loadShader_ok drv s ev _ _ hv, Outcome.bind]
  simp only [mock_loadShader_fail drv _ _ _ _ hf, Outcome.bind, MockGL.fresh_after_shader]
  simp only [WebGL.createProgram, mockGL, MockGL.createProgram,
    MockGL.fresh_after_shader_none]
  simp [WebGL.attachShader, Outcome.bind, throwTypeError, MockGL.attachShader,
    lookup_append_fresh _ _ _ _ hs0, lookup_append_fresh _ _ _ _ hp2,
    modify_append_fresh _ _ _ _ _ hp2, lookup_cons_eq, modify_cons, modify_nil]

/-- On the reference device, when both shaders compile `initShaderProgram` links them and
returns the program or, when the linker rejects them, reports and returns `null`. -/
theorem mock_initShaderProgram_compiled (drv : Driver) (s : MockGL) (ev : List Event)
    (vs fs : String) (hv : (drv.compile ShaderType.VERTEX_SHADER vs).1 = true)
    (hf : (drv.compile ShaderType.FRAGMENT_SHADER fs).1 = true) :
    Demo.initShaderProgram (mockGL drv) ⟨s, ev⟩ vs fs =
      Outcome.returned (if (drv.link vs fs).1 then some (s.fresh + 2) else none)
        ⟨{ s with
            shaders := s.shaders ++
              [⟨s.fresh, ShaderType.VERTEX_SHADER, vs, true,
                  (drv.compile ShaderType.VERTEX_SHADER vs).2, false⟩,
                ⟨s.fresh + 1, ShaderType.FRAGMENT_SHADER, fs, true,
                  (drv.compile ShaderType.FRAGMENT_SHADER fs).2, false⟩]
            programs := s.programs ++
              [⟨s.fresh + 2, some s.fresh, some (s.fresh + 1), (drv.link vs fs).1,
                (drv.link vs fs).2, if (drv.link vs fs).1 then some (vs, fs) else none⟩]
            next := s.fresh + 3 },
          ev ++ (loadOkEvents ShaderType.VERTEX_SHADER vs s.fresh ++
            loadOkEvents ShaderType.FRAGMENT_SHADER fs (s.fresh + 1) ++
            [Event.createProgram (some (s.fresh + 2)),
              Event.attachShader (s.fresh + 2) s.fresh,
              Event.attachShader (s.fresh + 2) (s.fresh + 1),
              Event.linkProgram (s.fresh + 2)] ++
            linkReportEvents (s.fresh + 2) (drv.link vs fs).1 (drv.link vs fs).2)⟩ := by
  have hs0 : ∀ x ∈ s.shaders, ShaderObj.id x ≠ s.fresh := fun x hx =>
    Nat.ne_of_lt (MockGL.shader_lt_fresh s x hx)
  have hs1 : ∀ x ∈ s.shaders, ShaderObj.id x ≠ s.fresh + 1 := fun x hx =>
    Nat.ne_of_lt (Nat.lt_succ_of_lt (MockGL.shader_lt_fresh s x hx))
  have hp2 : ∀ x ∈ s.programs, ProgramObj.id x ≠ s.fresh + 2 := fun x hx =>
    Nat.ne_of_lt (Nat.lt_add_right 2 (MockGL.program_lt_fresh s x hx))
  unfold Demo.initShaderProgram
  simp only [mock_loadShader_ok drv s ev _ _ hv, Outcome.bind]
  simp only [mock_loadShader_ok drv _ _ _ _ hf, Outcome.bind, MockGL.fresh_after_shader]
  simp only [WebGL.createProgram, mockGL, MockGL.createProgram, List.append_assoc,
    List.singleton_append, List.cons_append, List.nil_append,
    MockGL.fresh_after_shader_shader]
  rcases hl : (drv.link vs fs).1 <;>
    simp [WebGL.attachShader, WebGL.linkProgram, WebGL.getProgramParameter,
      WebGL.getProgramInfoLog, Outcome.bind, consoleLog, alert, jsString,
      MockGL.attachShader, MockGL.linkProgram, MockGL.linkResult,
      MockGL.getProgramParameter, MockGL.getProgramInfoLog,
      lookup_append_fresh _ _ _ _ hs0, lookup_append_fresh _ _ _ _ hs1,
      lookup_append_fresh _ _ _ _ hp2, modify_append_fresh _ _ _ _ _ hp2,
      lookup_cons_eq, lookup_cons_ne, lookup_nil, modify_cons, modify_nil,
      linkReportEvents, hl]

/-! ## The two scripts share their shader functions -/

theorem WebglDemo.loadShader_eq {σ : Type} (gl : Device σ) (w : World σ) (type : ShaderType)
    (source : String) :
    WebglDemo.loadShader gl w type source = Demo.loadShader gl w type source := rfl

theorem WebglDemo.initShaderProgram_eq {σ : Type} (gl : Device σ) (w : World σ)
    (vsSource fsSource : String) :
    WebglDemo.initShaderProgram gl w vsSource fsSource =
      Demo.initShaderProgram gl w vsSource fsSource := rfl

/-! ## Claims about `loadShader` -/

/-- Claim C1: on the reference device, whenever the compiler rejects the source (so that the
device answers `COMPILE_STATUS` false for the new shader), `loadShader` of either script
returns `null`, its last call is `deleteShader` of the one shader it created, and the
allocated shader objects after the call are exactly those before the call. -/
theorem loadShader_compile_failure_releases_shader (drv : Driver) (s : MockGL)
    (ev : List Event) (type : ShaderType) (source : String)
    (hc : (drv.compile type source).1 = false) :
    (Demo.loadShader (mockGL drv) ⟨s, ev⟩ type source).value? = some none ∧
    (Demo.loadShader (mockGL drv) ⟨s, ev⟩ type source).world.events =
      ev ++ loadFailEvents type source s.fresh (drv.compile type source).2 ∧
    Event.createShader type (some s.fresh) ∈
      loadFailEvents type source s.fresh (drv.compile type source).2 ∧
    Event.getShaderParameter s.fresh false ∈
      loadFailEvents type source s.fresh (drv.compile type source).2 ∧
    (loadFailEvents type source s.fresh (drv.compile type source).2).getLast? =
      some (Event.deleteShader (some s.fresh)) ∧
    (Demo.loadShader (mockGL drv) ⟨s, ev⟩ type source).world.gl.shaders = s.shaders ∧
    allocatedShaders (Demo.loadShader (mockGL drv) ⟨s, ev⟩ type source).world.gl =
      allocatedShaders s ∧
    (WebglDemo.loadShader (mockGL drv) ⟨s, ev⟩ type source).value? = some none ∧
    allocatedShaders (WebglDemo.loadShader (mockGL drv) ⟨s, ev⟩ type source).world.gl =
      allocatedShaders s := by
  rw [WebglDemo.loadShader_eq, mock_loadShader_fail drv s ev type source hc]
  simp [loadFailEvents, allocatedShaders, Outcome.value?, Outcome.world]

/-- The release of a rejected vertex shader, on a device without objects. -/
theorem loadShader_compile_failure_releases_shader_witness :
    (rejectVertex.compile ShaderType.VERTEX_SHADER "void main(" ).1 = false ∧
    (Demo.loadShader (mockGL rejectVertex) ⟨MockGL.empty, []⟩
      ShaderType.VERTEX_SHADER "void main(").value? = some none ∧
    allocatedShaders (Demo.loadShader (mockGL rejectVertex) ⟨MockGL.empty, []⟩
      ShaderType.VERTEX_SHADER "void main(").world.gl = allocatedShaders MockGL.empty :=
  ⟨rfl,
    (loadShader_compile_failure_releases_shader rejectVertex MockGL.empty []
      ShaderType.VERTEX_SHADER "void main(" rfl).1,
    (loadShader_compile_failure_releases_shader rejectVertex MockGL.empty []
      ShaderType.VERTEX_SHADER "void main(" rfl).2.2.2.2.2.2.1⟩

/-- Claim C6, as stated, fails: a vertex shader rejected with one log and a fragment shader
rejected with another log both make `loadShader` return the same value `null`, which carries
neither the stage kind nor the log; the two logs only show in the device answers. -/
theorem loadShader_failure_value_is_null :
    (Demo.loadShader (mockGL rejectVertex) ⟨MockGL.empty, []⟩
      ShaderType.VERTEX_SHADER "void main(").value? = some none ∧
    (Demo.loadShader (mockGL rejectFragment) ⟨MockGL.empty, []⟩
      ShaderType.FRAGMENT_SHADER "void main(").value? = some none ∧
    Event.getShaderInfoLog 1 (some "ERROR: 0:1: syntax error") ∈
      (Demo.loadShader (mockGL rejectVertex) ⟨MockGL.empty, []⟩
        ShaderType.VERTEX_SHADER "void main(").world.events ∧
    Event.getShaderInfoLog 1 (some "ERROR: 0:2: undeclared identifier") ∈
      (Demo.loadShader (mockGL rejectFragment) ⟨MockGL.empty, []⟩
        ShaderType.FRAGMENT_SHADER "void main(").world.events := by
  decide

/-- Claim C6, amended: when the compiler rejects the source, `loadShader` of either script
returns `null`; the stage kind and the log answered by `getShaderInfoLog` go to
`console.log`, the log answered by a second `getShaderInfoLog` goes to `alert`, and only then
is the shader deleted. -/
theorem loadShader_failure_reports_then_deletes (drv : Driver) (s : MockGL)
    (ev : List Event) (type : ShaderType) (source : String)
    (hc : (drv.compile type source).1 = false) :
    Demo.loadShader (mockGL drv) ⟨s, ev⟩ type source =
      Outcome.returned none
        ⟨{ s with next := s.fresh + 1 },
          ev ++
            [Event.createShader type (some s.fresh),
              Event.shaderSource s.fresh source,
              Event.compileShader s.fresh,
              Event.getShaderParameter s.fresh false,
              Event.getShaderInfoLog s.fresh (some (drv.compile type source).2),
              Event.consoleLog
                [LogArg.str ("Error compiling shader (" ++
                    (if type = ShaderType.VERTEX_SHADER then "VERTEX" else "FRAGMENT") ++
                    "):"),
                  LogArg.text (some (drv.compile type source).2)],
              Event.getShaderInfoLog s.fresh (some (drv.compile type source).2),
              Event.alert ("An error occurred compiling the shaders: " ++
                (drv.compile type source).2),
              Event.deleteShader (some s.fresh)]⟩ ∧
    WebglDemo.loadShader (mockGL drv) ⟨s, ev⟩ type source =
      Demo.loadShader (mockGL drv) ⟨s, ev⟩ type source :=
  ⟨mock_loadShader_fail drv s ev type source hc, rfl⟩

/-- The report of a rejected fragment shader, on a device without objects. -/
theorem loadShader_failure_reports_then_deletes_witness :
    (rejectFragment.compile ShaderType.FRAGMENT_SHADER "void main(").1 = false ∧
    Demo.loadShader (mockGL rejectFragment) ⟨MockGL.empty, []⟩
        ShaderType.FRAGMENT_SHADER "void main(" =
      Outcome.returned none
        ⟨{ MockGL.empty with next := 2 },
          [Event.createShader ShaderType.FRAGMENT_SHADER (some 1),
            Event.shaderSource 1 "void main(",
            Event.compileShader 1,
            Event.getShaderParameter 1 false,
            Event.getShaderInfoLog 1 (some "ERROR: 0:2: undeclared identifier"),
            Event.consoleLog
              [LogArg.str "Error compiling shader (FRAGMENT):",
                LogArg.text (some "ERROR: 0:2: undeclared identifier")],
            Event.getShaderInfoLog 1 (some "ERROR: 0:2: undeclared identifier"),
            Event.alert
              "An error occurred compiling the shaders: ERROR: 0:2: undeclared identifier",
            Event.deleteShader (some 1)]⟩ :=
  ⟨rfl,
    (loadShader_failure_reports_then_deletes rejectFragment MockGL.empty []
      ShaderType.FRAGMENT_SHADER "void main(" rfl).1⟩

/-! ## Claims about `initShaderProgram` -/

/-- Claim C2, as stated, fails: with two stages that compile and a linker that rejects them,
`initShaderProgram` returns `null` and both shaders (handles 1 and 2) and the program
(handle 3) are still allocated. -/
theorem initShaderProgram_link_failure_leaks :
    (Demo.initShaderProgram (mockGL rejectLink) ⟨MockGL.empty, []⟩ "v" "f").value? =
      some none ∧
    Event.getShaderParameter 1 true ∈
      (Demo.initShaderProgram (mockGL rejectLink) ⟨MockGL.empty, []⟩ "v" "f").world.events ∧
    Event.getShaderParameter 2 true ∈
      (Demo.initShaderProgram (mockGL rejectLink) ⟨MockGL.empty, []⟩ "v" "f").world.events ∧
    Event.getProgramParameter 3 false ∈
      (Demo.initShaderProgram (mockGL rejectLink) ⟨MockGL.empty, []⟩ "v" "f").world.events ∧
    allocatedShaders
      (Demo.initShaderProgram (mockGL rejectLink) ⟨MockGL.empty, []⟩ "v" "f").world.gl =
        [1, 2] ∧
    allocatedPrograms
      (Demo.initShaderProgram (mockGL rejectLink) ⟨MockGL.empty, []⟩ "v" "f").world.gl =
        [3] := by
  decide

/-- Claim C2, amended: when both stages compile and the linker rejects them (the device
answers `LINK_STATUS` false), `initShaderProgram` of either script passes the program log to
`console.log` and `alert` and returns `null`; it deletes nothing: the two shaders and the
program it created remain allocated, the shaders attached to the program. -/
theorem initShaderProgram_link_failure_keeps_objects (drv : Driver) (s : MockGL)
    (ev : List Event) (vs fs : String)
    (hv : (drv.compile ShaderType.VERTEX_SHADER vs).1 = true)
    (hf : (drv.compile ShaderType.FRAGMENT_SHADER fs).1 = true)
    (hl : (drv.link vs fs).1 = false) :
    (Demo.initShaderProgram (mockGL drv) ⟨s, ev⟩ vs fs).value? = some none ∧
    (Demo.initShaderProgram (mockGL drv) ⟨s, ev⟩ vs fs).world.events =
      ev ++ (loadOkEvents ShaderType.VERTEX_SHADER vs s.fresh ++
        loadOkEvents ShaderType.FRAGMENT_SHADER fs (s.fresh + 1) ++
        [Event.createProgram (some (s.fresh + 2)),
          Event.attachShader (s.fresh + 2) s.fresh,
          Event.attachShader (s.fresh + 2) (s.fresh + 1),
          Event.linkProgram (s.fresh + 2),
          Event.getProgramParameter (s.fresh + 2) false,
          Event.getProgramInfoLog (s.fresh + 2) (some (drv.link vs fs).2),
          Event.consoleLog [LogArg.str "Unable to initialize the shader program:",
            LogArg.text (some (drv.link vs fs).2)],
          Event.getProgramInfoLog (s.fresh + 2) (some (drv.link vs fs).2),
          Event.alert ("Unable to initialize the shader program: " ++ (drv.link vs fs).2)]) ∧
    (Demo.initShaderProgram (mockGL drv) ⟨s, ev⟩ vs fs).world.gl.shaders =
      s.shaders ++
        [⟨s.fresh, ShaderType.VERTEX_SHADER, vs, true,
            (drv.compile ShaderType.VERTEX_SHADER vs).2, false⟩,
          ⟨s.fresh + 1, ShaderType.FRAGMENT_SHADER, fs, true,
            (drv.compile ShaderType.FRAGMENT_SHADER fs).2, false⟩] ∧
    (Demo.initShaderProgram (mockGL drv) ⟨s, ev⟩ vs fs).world.gl.programs =
      s.programs ++
        [⟨s.fresh + 2, some s.fresh, some (s.fresh + 1), false, (drv.link vs fs).2, none⟩] ∧
    allocatedShaders (Demo.initShaderProgram (mockGL drv) ⟨s, ev⟩ vs fs).world.gl =
      allocatedShaders s ++ [s.fresh, s.fresh + 1] ∧
    allocatedPrograms (Demo.initShaderProgram (mockGL drv) ⟨s, ev⟩ vs fs).world.gl =
      allocatedPrograms s ++ [s.fresh + 2] ∧
    WebglDemo.initShaderProgram (mockGL drv) ⟨s, ev⟩ vs fs =
      Demo.initShaderProgram (mockGL drv) ⟨s, ev⟩ vs fs := by
  rw [WebglDemo.initShaderProgram_eq, mock_initShaderProgram_compiled drv s ev vs fs hv hf]
  simp [linkReportEvents, hl, allocatedShaders, allocatedPrograms, Outcome.value?,
    Outcome.world]

/-- The objects left behind by a rejected link, on a device without objects. -/
theorem initShaderProgram_link_failure_keeps_objects_witness :
    (rejectLink.compile ShaderType.VERTEX_SHADER "v").1 = true ∧
    (rejectLink.compile ShaderType.FRAGMENT_SHADER "f").1 = true ∧
    (rejectLink.link "v" "f").1 = false ∧
    (Demo.initShaderProgram (mockGL rejectLink) ⟨MockGL.empty, []⟩ "v" "f").value? =
      some none ∧
    allocatedShaders
        (Demo.initShaderProgram (mockGL rejectLink) ⟨MockGL.empty, []⟩ "v" "f").world.gl =
      allocatedShaders MockGL.empty ++ [MockGL.empty.fresh, MockGL.empty.fresh + 1] ∧
    allocatedPrograms
        (Demo.initShaderProgram (mockGL rejectLink) ⟨MockGL.empty, []⟩ "v" "f").world.gl =
      allocatedPrograms MockGL.empty ++ [MockGL.empty.fresh + 2] :=
  ⟨rfl, rfl, rfl,
    (initShaderProgram_link_failure_keeps_objects rejectLink MockGL.empty [] "v" "f"
      rfl rfl rfl).1,
    (initShaderProgram_link_failure_keeps_objects rejectLink MockGL.empty [] "v" "f"
      rfl rfl rfl).2.2.2.2.1,
    (initShaderProgram_link_failure_keeps_objects rejectLink MockGL.empty [] "v" "f"
      rfl rfl rfl).2.2.2.2.2.1⟩

/-- Claim C5, as stated, fails: with stages that compile and link, `initShaderProgram`
returns the program (handle 3) while both shaders (handles 1 and 2) are still allocated and
attached to it, and no `deleteShader` call was made. -/
theorem linked_program_still_has_shaders :
    (Demo.initShaderProgram (mockGL acceptAll) ⟨MockGL.empty, []⟩ "v" "f").value? =
      some (some 3) ∧
    allocatedShaders
      (Demo.initShaderProgram (mockGL acceptAll) ⟨MockGL.empty, []⟩ "v" "f").world.gl =
        [1, 2] ∧
    (Demo.initShaderProgram (mockGL acceptAll) ⟨MockGL.empty, []⟩ "v" "f").world.gl.programs =
      [⟨3, some 1, some 2, true, "", some ("v", "f")⟩] ∧
    Event.deleteShader (some 1) ∉
      (Demo.initShaderProgram (mockGL acceptAll) ⟨MockGL.empty, []⟩ "v" "f").world.events ∧
    Event.deleteShader (some 2) ∉
      (Demo.initShaderProgram (mockGL acceptAll) ⟨MockGL.empty, []⟩ "v" "f").world.events := by
  decide

/-- Claim C5, amended: when both stages compile and the program links, `initShaderProgram`
of either script returns the program and makes no `deleteShader` call: the two shaders it
created remain allocated on the device and attached to the returned program. -/
theorem initShaderProgram_success_keeps_shaders (drv : Driver) (s : MockGL)
    (ev : List Event) (vs fs : String)
    (hv : (drv.compile ShaderType.VERTEX_SHADER vs).1 = true)
    (hf : (drv.compile ShaderType.FRAGMENT_SHADER fs).1 = true)
    (hl : (drv.link vs fs).1 = true) :
    (Demo.initShaderProgram (mockGL drv) ⟨s, ev⟩ vs fs).value? = some (some (s.fresh + 2)) ∧
    (Demo.initShaderProgram (mockGL drv) ⟨s, ev⟩ vs fs).world.events =
      ev ++ (loadOkEvents ShaderType.VERTEX_SHADER vs s.fresh ++
        loadOkEvents ShaderType.FRAGMENT_SHADER fs (s.fresh + 1) ++
        [Event.createProgram (some (s.fresh + 2)),
          Event.attachShader (s.fresh + 2) s.fresh,
          Event.attachShader (s.fresh + 2) (s.fresh + 1),
          Event.linkProgram (s.fresh + 2),
          Event.getProgramParameter (s.fresh + 2) true]) ∧
    (∀ h, Event.deleteShader h ∉
      (loadOkEvents ShaderType.VERTEX_SHADER vs s.fresh ++
        loadOkEvents ShaderType.FRAGMENT_SHADER fs (s.fresh + 1) ++
        [Event.createProgram (some (s.fresh + 2)),
          Event.attachShader (s.fresh + 2) s.fresh,
          Event.attachShader (s.fresh + 2) (s.fresh + 1),
          Event.linkProgram (s.fresh + 2),
          Event.getProgramParameter (s.fresh + 2) true])) ∧
    (Demo.initShaderProgram (mockGL drv) ⟨s, ev⟩ vs fs).world.gl.shaders =
      s.shaders ++
        [⟨s.fresh, ShaderType.VERTEX_SHADER, vs, true,
            (drv.compile ShaderType.VERTEX_SHADER vs).2, false⟩,
          ⟨s.fresh + 1, ShaderType.FRAGMENT_SHADER, fs, true,
            (drv.compile ShaderType.FRAGMENT_SHADER fs).2, false⟩] ∧
    (Demo.initShaderProgram (mockGL drv) ⟨s, ev⟩ vs fs).world.gl.programs =
      s.programs ++
        [⟨s.fresh + 2, some s.fresh, some (s.fresh + 1), true, (drv.link vs fs).2,
          some (vs, fs)⟩] ∧
    allocatedShaders (Demo.initShaderProgram (mockGL drv) ⟨s, ev⟩ vs fs).world.gl =
      allocatedShaders s ++ [s.fresh, s.fresh + 1] ∧
    WebglDemo.initShaderProgram (mockGL drv) ⟨s, ev⟩ vs fs =
      Demo.initShaderProgram (mockGL drv) ⟨s, ev⟩ vs fs := by
  rw [WebglDemo.initShaderProgram_eq, mock_initShaderProgram_compiled drv s ev vs fs hv hf]
  simp [linkReportEvents, loadOkEvents, hl, allocatedShaders, Outcome.value?,
    Outcome.world]

/-- The shaders left behind by a successful build, on a device without objects. -/
theorem initShaderProgram_success_keeps_shaders_witness :
    (acceptAll.compile ShaderType.VERTEX_SHADER "v").1 = true ∧
    (acceptAll.compile ShaderType.FRAGMENT_SHADER "f").1 = true ∧
    (acceptAll.link "v" "f").1 = true ∧
    (Demo.initShaderProgram (mockGL acceptAll) ⟨MockGL.empty, []⟩ "v" "f").value? =
      some (some (MockGL.empty.fresh + 2)) ∧
    allocatedShaders
        (Demo.initShaderProgram (mockGL acceptAll) ⟨MockGL.empty, []⟩ "v" "f").world.gl =
      allocatedShaders MockGL.empty ++ [MockGL.empty.fresh, MockGL.empty.fresh + 1] :=
  ⟨rfl, rfl, rfl,
    (initShaderProgram_success_keeps_shaders acceptAll MockGL.empty [] "v" "f"
      rfl rfl rfl).1,
    (initShaderProgram_success_keeps_shaders acceptAll MockGL.empty [] "v" "f"
      rfl rfl rfl).2.2.2.2.2.1⟩

/-- Claim C3, as stated, fails: when the vertex shader does not compile, `initShaderProgram`
goes on after `deleteShader` of the failed shader: it creates and compiles the fragment
shader and creates a program; then `attachShader(shaderProgram, null)` throws a `TypeError`,
so nothing is returned, and the fragment shader (handle 2) and the program (handle 3) are
still allocated. -/
theorem initShaderProgram_vertex_failure_example :
    (Demo.initShaderProgram (mockGL rejectVertex) ⟨MockGL.empty, []⟩ "v" "f").value? = none ∧
    (Demo.initShaderProgram (mockGL rejectVertex) ⟨MockGL.empty, []⟩ "v" "f").world.events =
      [Event.createShader ShaderType.VERTEX_SHADER (some 1),
        Event.shaderSource 1 "v",
        Event.compileShader 1,
        Event.getShaderParameter 1 false,
        Event.getShaderInfoLog 1 (some "ERROR: 0:1: syntax error"),
        Event.consoleLog [LogArg.str "Error compiling shader (VERTEX):",
          LogArg.text (some "ERROR: 0:1: syntax error")],
        Event.getShaderInfoLog 1 (some "ERROR: 0:1: syntax error"),
        Event.alert "An error occurred compiling the shaders: ERROR: 0:1: syntax error",
        Event.deleteShader (some 1),
        Event.createShader ShaderType.FRAGMENT_SHADER (some 2),
        Event.shaderSource 2 "f",
        Event.compileShader 2,
        Event.getShaderParameter 2 true,
        Event.createProgram (some 3),
        Event.typeError "attachShader"] ∧
    allocatedShaders
      (Demo.initShaderProgram (mockGL rejectVertex) ⟨MockGL.empty, []⟩ "v" "f").world.gl =
        [2] ∧
    allocatedPrograms
      (Demo.initShaderProgram (mockGL rejectVertex) ⟨MockGL.empty, []⟩ "v" "f").world.gl =
        [3] := by
  decide

/-- Claim C3, amended: `initShaderProgram` of either script does not abort at the first
error.  When the vertex shader does not compile, `loadShader` reports, deletes that shader
and returns `null`; `initShaderProgram` then still loads the fragment shader and creates a
program, and its next call, `attachShader(shaderProgram, null)`, throws a `TypeError`: the
function ends without a return value and without an attach or a link.  The failed vertex
shader is released; a fragment shader that compiled and the program stay allocated. -/
theorem initShaderProgram_vertex_failure_continues (drv : Driver) (s : MockGL)
    (ev : List Event) (vs fs : String)
    (hv : (drv.compile ShaderType.VERTEX_SHADER vs).1 = false) :
    (Demo.initShaderProgram (mockGL drv) ⟨s, ev⟩ vs fs).value? = none ∧
    (Demo.initShaderProgram (mockGL drv) ⟨s, ev⟩ vs fs).world.events =
      ev ++ (loadFailEvents ShaderType.VERTEX_SHADER vs s.fresh
          (drv.compile ShaderType.VERTEX_SHADER vs).2 ++
        loadEvents drv ShaderType.FRAGMENT_SHADER fs (s.fresh + 1) ++
        [Event.createProgram (some (s.fresh + 2)), Event.typeError "attachShader"]) ∧
    Event.createShader ShaderType.FRAGMENT_SHADER (some (s.fresh + 1)) ∈
      loadEvents drv ShaderType.FRAGMENT_SHADER fs (s.fresh + 1) ∧
    s.fresh ∉
      allocatedShaders (Demo.initShaderProgram (mockGL drv) ⟨s, ev⟩ vs fs).world.gl ∧
    allocatedShaders (Demo.initShaderProgram (mockGL drv) ⟨s, ev⟩ vs fs).world.gl =
      allocatedShaders s ++
        (if (drv.compile ShaderType.FRAGMENT_SHADER fs).1 then [s.fresh + 1] else []) ∧
    allocatedPrograms (Demo.initShaderProgram (mockGL drv) ⟨s, ev⟩ vs fs).world.gl =
      allocatedPrograms s ++ [s.fresh + 2] ∧
    WebglDemo.initShaderProgram (mockGL drv) ⟨s, ev⟩ vs fs =
      Demo.initShaderProgram (mockGL drv) ⟨s, ev⟩ vs fs := by
  have hnot : ∀ x ∈ s.shaders, ¬ x.id = s.fresh := fun x hx =>
    Nat.ne_of_lt (MockGL.shader_lt_fresh s x hx)
  rw [WebglDemo.initShaderProgram_eq, mock_initShaderProgram_vertexFail drv s ev vs fs hv]
  rcases hf : (drv.compile ShaderType.FRAGMENT_SHADER fs).1 <;>
    simp [loadEvents, loadOkEvents, loadFailEvents, hf, allocatedShaders,
      allocatedPrograms, Outcome.value?, Outcome.world] <;>
    exact hnot

/-- The build that goes on after a rejected vertex shader, on a device without objects. -/
theorem initShaderProgram_vertex_failure_continues_witness :
    (rejectVertex.compile ShaderType.VERTEX_SHADER "v").1 = false ∧
    (Demo.initShaderProgram (mockGL rejectVertex) ⟨MockGL.empty, []⟩ "v" "f").value? = none ∧
    allocatedPrograms
        (Demo.initShaderProgram (mockGL rejectVertex) ⟨MockGL.empty, []⟩ "v" "f").world.gl =
      allocatedPrograms MockGL.empty ++ [MockGL.empty.fresh + 2] :=
  ⟨rfl,
    (initShaderProgram_vertex_failure_continues rejectVertex MockGL.empty [] "v" "f" rfl).1,
    (initShaderProgram_vertex_failure_continues rejectVertex MockGL.empty [] "v" "f"
      rfl).2.2.2.2.2.1⟩

/-! ## Facts that hold on every device -/

theorem Outcome.bind_returned {σ α β : Type} (a : α) (w : World σ)
    (k : α → World σ → Outcome σ β) : (Outcome.returned a w).bind k = k a w := rfl

theorem Outcome.bind_threw {σ α β : Type} (w : World σ)
    (k : α → World σ → Outcome σ β) : (Outcome.threw w : Outcome σ α).bind k =
      Outcome.threw w := rfl

/-- On every device `loadShader` only adds events. -/
theorem loadShader_events_append {σ : Type} (gl : Device σ) (w : World σ)
    (type : ShaderType) (source : String) :
    ∃ evs, (Demo.loadShader gl w type source).world.events = w.events ++ evs := by
  unfold Demo.loadShader
  simp only [WebGL.createShader]
  rcases hc : (gl.createShader w.gl type).1 with _ | h
  · exact ⟨_, by
      simp only [WebGL.shaderSource, throwTypeError, Outcome.bind_threw, Outcome.world,
        List.append_assoc]
      rfl⟩
  · simp only [WebGL.shaderSource, WebGL.compileShader, WebGL.getShaderParameter,
      Outcome.bind_returned]
    split
    · exact ⟨_, by
        simp only [WebGL.getShaderInfoLog, Outcome.bind_returned, Outcome.world,
          WebGL.deleteShader, consoleLog, alert, List.append_assoc]
        rfl⟩
    · exact ⟨_, by
        simp only [Outcome.world, List.append_assoc]
        rfl⟩

/-- Claim C4: on every device, `initShaderProgram` of either script ends in one of three
ways: it throws, it returns `null`, or it returns a program `p` for which the last thing the
call did was to ask for `LINK_STATUS` of `p` and get a true answer. -/
theorem initShaderProgram_returns_null_or_linked {σ : Type} (gl : Device σ) (w : World σ)
    (vsSource fsSource : String) :
    ((Demo.initShaderProgram gl w vsSource fsSource).value? = none ∨
      (Demo.initShaderProgram gl w vsSource fsSource).value? = some none ∨
      ∃ p evs, (Demo.initShaderProgram gl w vsSource fsSource).value? = some (some p) ∧
        (Demo.initShaderProgram gl w vsSource fsSource).world.events = w.events ++ evs ∧
        evs.getLast? = some (Event.getProgramParameter p true)) ∧
    ((WebglDemo.initShaderProgram gl w vsSource fsSource).value? = none ∨
      (WebglDemo.initShaderProgram gl w vsSource fsSource).value? = some none ∨
      ∃ p evs, (WebglDemo.initShaderProgram gl w vsSource fsSource).value? = some (some p) ∧
        (WebglDemo.initShaderProgram gl w vsSource fsSource).world.events = w.events ++ evs ∧
        evs.getLast? = some (Event.getProgramParameter p true)) := by
  rw [WebglDemo.initShaderProgram_eq, and_self]
  obtain ⟨e1, h1⟩ := loadShader_events_append gl w ShaderType.VERTEX_SHADER vsSource
  unfold Demo.initShaderProgram
  rcases hv : Demo.loadShader gl w ShaderType.VERTEX_SHADER vsSource with ⟨v, w1⟩ | w1
  swap
  · exact Or.inl rfl
  rw [hv] at h1
  obtain ⟨e2, h2⟩ := loadShader_events_append gl w1 ShaderType.FRAGMENT_SHADER fsSource
  simp only [Outcome.bind_returned]
  rcases hf : Demo.loadShader gl w1 ShaderType.FRAGMENT_SHADER fsSource with ⟨f, w2⟩ | w2
  swap
  · exact Or.inl rfl
  rw [hf] at h2
  simp only [Outcome.bind_returned, Outcome.world] at h1 h2 ⊢
  have hc2 : (WebGL.createProgram gl w2).2.events =
      w2.events ++ [Event.createProgram (WebGL.createProgram gl w2).1] := rfl
  rcases hp : (WebGL.createProgram gl w2).1 with _ | p
  · exact Or.inl (by simp [WebGL.attachShader, throwTypeError, Outcome.bind, Outcome.value?])
  rcases v with _ | v
  · exact Or.inl (by simp [WebGL.attachShader, throwTypeError, Outcome.bind, Outcome.value?])
  rcases f with _ | f
  · exact Or.inl (by simp [WebGL.attachShader, throwTypeError, Outcome.bind, Outcome.value?])
  simp only [WebGL.attachShader, WebGL.linkProgram, WebGL.getProgramParameter,
    Outcome.bind_returned]
  split
  · exact Or.inr (Or.inl (by simp [WebGL.getProgramInfoLog, Outcome.bind, Outcome.value?]))
  · rename_i hs
    refine Or.inr (Or.inr ⟨p, e1 ++ e2 ++ [Event.createProgram (some p),
      Event.attachShader p v, Event.attachShader p f, Event.linkProgram p,
      Event.getProgramParameter p true], rfl, ?_, by simp⟩)
    simp only [Bool.not_eq_true, Bool.not_eq_false'] at hs
    simp only [Outcome.world, hs, hc2, hp, h2, h1, List.append_assoc, List.cons_append,
      List.nil_append, List.singleton_append]

/-! ## Building twice -/

theorem MockGL.uniform4fv_programs (s : MockGL) (location : Option Nat) (value : List ℚ) :
    (MockGL.uniform4fv s location value).programs = s.programs := by
  unfold MockGL.uniform4fv
  split <;> rfl

theorem MockGL.useProgram_programs (s : MockGL) (program : Option Handle) :
    (MockGL.useProgram s program).programs = s.programs := by
  unfold MockGL.useProgram
  split
  · rfl
  · split
    · rfl
    · split <;> rfl

theorem MockGL.getUniformLocation_state (drv : Driver) (s : MockGL)
    (program : Handle) (name : String) :
    (MockGL.getUniformLocation drv s program name).2 = s := by
  unfold MockGL.getUniformLocation
  split <;> rfl

theorem MockGL.getAttribLocation_state (drv : Driver) (s : MockGL)
    (program : Handle) (name : String) :
    (MockGL.getAttribLocation drv s program name).2 = s := by
  unfold MockGL.getAttribLocation
  split <;> rfl

theorem MockGL.getUniformLocation_value (drv : Driver) (s : MockGL)
    (program : Handle) (name : String) :
    (MockGL.getUniformLocation drv s program name).1 =
      match (lookup ProgramObj.id s.programs program).bind ProgramObj.linked with
      | none => none
      | some src => drv.uniformLocation src.1 src.2 name := by
  unfold MockGL.getUniformLocation
  split <;> simp_all

theorem MockGL.getAttribLocation_value (drv : Driver) (s : MockGL)
    (program : Handle) (name : String) :
    (MockGL.getAttribLocation drv s program name).1 =
      match (lookup ProgramObj.id s.programs program).bind ProgramObj.linked with
      | none => -1
      | some src => drv.attribLocation src.1 src.2 name := by
  unfold MockGL.getAttribLocation
  split <;> simp_all

/-- On the reference device the build of lines 54 to 70 of `main` returns exactly when both
stages compile and link, and then with the locations the driver assigns to the sources. -/
theorem mock_buildProgramInfo (drv : Driver) (s : MockGL) (ev : List Event)
    (vs fs : String) :
    (Demo.buildProgramInfo (mockGL drv) ⟨s, ev⟩ vs fs).value? =
      if builds drv vs fs then
        some (⟨some (s.fresh + 2),
            [("vertexPosition", drv.attribLocation vs fs "aVertexPosition"),
              ("vertexColor", drv.attribLocation vs fs "aVertexColor")],
            [("projectionMatrix", drv.uniformLocation vs fs "uProjectionMatrix"),
              ("modelViewMatrix", drv.uniformLocation vs fs "uModelViewMatrix")]⟩,
          drv.uniformLocation vs fs "uSquareColor")
      else none := by
  have hp2 : ∀ x ∈ s.programs, ProgramObj.id x ≠ s.fresh + 2 := fun x hx =>
    Nat.ne_of_lt (Nat.lt_add_right 2 (MockGL.program_lt_fresh s x hx))
  unfold Demo.buildProgramInfo
  rcases hv : (drv.compile ShaderType.VERTEX_SHADER vs).1
  · rw [mock_initShaderProgram_vertexFail drv s ev vs fs hv]
    simp [Outcome.bind, Outcome.value?, builds, hv]
  rcases hf : (drv.compile ShaderType.FRAGMENT_SHADER fs).1
  · rw [mock_initShaderProgram_fragmentFail drv s ev vs fs hv hf]
    simp [Outcome.bind, Outcome.value?, builds, hv, hf]
  rw [mock_initShaderProgram_compiled drv s ev vs fs hv hf]
  rcases hl : (drv.link vs fs).1
  · simp [Outcome.bind, Outcome.value?, builds, hv, hf, hl, WebGL.getUniformLocation,
      throwTypeError]
  · simp [Outcome.bind, Outcome.value?, builds, hv, hf, hl, WebGL.getUniformLocation,
      WebGL.useProgram, WebGL.uniform4fv, WebGL.getAttribLocation, mockGL,
      MockGL.getUniformLocation_value, MockGL.getAttribLocation_value,
      MockGL.getUniformLocation_state, MockGL.getAttribLocation_state,
      MockGL.uniform4fv_programs, MockGL.useProgram_programs,
      lookup_append_fresh _ _ _ _ hp2, lookup_cons_eq]

/-- Claim C7: on the reference device, whose compiler, linker and location assignment are
functions of the sources, building twice in a row with the same sources (the second build
starting in the device state the first one left) ends the same way both times: the second
build returns exactly when the first one did, and then with the same value for every
location `main` looks up. -/
theorem buildProgramInfo_twice_same_locations (drv : Driver) (s : MockGL)
    (ev : List Event) (vs fs : String) :
    ((Demo.buildProgramInfo (mockGL drv)
        (Demo.buildProgramInfo (mockGL drv) ⟨s, ev⟩ vs fs).world vs fs).value?.map
          (fun r => r.1.attribLocations)) =
      ((Demo.buildProgramInfo (mockGL drv) ⟨s, ev⟩ vs fs).value?.map
          (fun r => r.1.attribLocations)) ∧
    ((Demo.buildProgramInfo (mockGL drv)
        (Demo.buildProgramInfo (mockGL drv) ⟨s, ev⟩ vs fs).world vs fs).value?.map
          (fun r => r.1.uniformLocations)) =
      ((Demo.buildProgramInfo (mockGL drv) ⟨s, ev⟩ vs fs).value?.map
          (fun r => r.1.uniformLocations)) ∧
    ((Demo.buildProgramInfo (mockGL drv)
        (Demo.buildProgramInfo (mockGL drv) ⟨s, ev⟩ vs fs).world vs fs).value?.map
          (fun r => r.2)) =
      ((Demo.buildProgramInfo (mockGL drv) ⟨s, ev⟩ vs fs).value?.map (fun r => r.2)) ∧
    ((Demo.buildProgramInfo (mockGL drv)
        (Demo.buildProgramInfo (mockGL drv) ⟨s, ev⟩ vs fs).world vs fs).value?.map
          (fun r => r.1.program.isSome)) =
      ((Demo.buildProgramInfo (mockGL drv) ⟨s, ev⟩ vs fs).value?.map
          (fun r => r.1.program.isSome)) ∧
    ((Demo.buildProgramInfo (mockGL drv)
        (Demo.buildProgramInfo (mockGL drv) ⟨s, ev⟩ vs fs).world vs fs).value?.isSome =
      (Demo.buildProgramInfo (mockGL drv) ⟨s, ev⟩ vs fs).value?.isSome) := by
  have key : ∀ w : World MockGL, (Demo.buildProgramInfo (mockGL drv) w vs fs).value? =
      if builds drv vs fs then
        some (⟨some (w.gl.fresh + 2),
            [("vertexPosition", drv.attribLocation vs fs "aVertexPosition"),
              ("vertexColor", drv.attribLocation vs fs "aVertexColor")],
            [("projectionMatrix", drv.uniformLocation vs fs "uProjectionMatrix"),
              ("modelViewMatrix", drv.uniformLocation vs fs "uModelViewMatrix")]⟩,
          drv.uniformLocation vs fs "uSquareColor")
      else none :=
    fun w => mock_buildProgramInfo drv w.gl w.events vs fs
  simp only [key]
  rcases builds drv vs fs <;> simp

/-! ## The two scripts compared, and `main` -/

/-- Claim C8: on every device and for every shader type and sources, `loadShader` and
`initShaderProgram` of `demo.js` end the same way (same returned value or same `TypeError`)
and leave the same world (device state and sequence of device calls, console logs and
alerts) as those of `webgl-demo.js`. -/
theorem demo_and_webgl_demo_build_alike {σ : Type} (gl : Device σ) (w : World σ)
    (type : ShaderType) (source vsSource fsSource : String) :
    Demo.loadShader gl w type source = WebglDemo.loadShader gl w type source ∧
    Demo.initShaderProgram gl w vsSource fsSource =
      WebglDemo.initShaderProgram gl w vsSource fsSource :=
  ⟨rfl, rfl⟩

/-- Claim C10, as stated, fails: with a context, two stages that compile and a linker that
rejects them, `initShaderProgram` returns `null` and `main` of either script does stop: its
next call `gl.getUniformLocation(null, ..)` throws a `TypeError`, which is the last thing
that happens; there is no `useProgram`, no `uniform4fv`, no `initBuffers`, no `drawScene`
and no `requestAnimationFrame`. -/
theorem main_stops_at_null_program :
    (Demo.initShaderProgram (mockGL rejectLink)
      (WebGL.clear (mockGL rejectLink)
        (WebGL.clearColor (mockGL rejectLink) ⟨MockGL.empty, []⟩ 0 0 0 1))
      Demo.vsSource Demo.fsSource).value? = some none ∧
    (Demo.main (some (mockGL rejectLink)) idleImports ⟨MockGL.empty, []⟩).value?.isSome = false ∧
    (Demo.main (some (mockGL rejectLink)) idleImports ⟨MockGL.empty, []⟩).world.events.getLast?
      = some (Event.typeError "getUniformLocation") ∧
    Event.useProgram none ∉
      (Demo.main (some (mockGL rejectLink)) idleImports ⟨MockGL.empty, []⟩).world.events ∧
    Event.initBuffers ∉
      (Demo.main (some (mockGL rejectLink)) idleImports ⟨MockGL.empty, []⟩).world.events ∧
    Event.requestAnimationFrame ∉
      (Demo.main (some (mockGL rejectLink)) idleImports ⟨MockGL.empty, []⟩).world.events ∧
    (WebglDemo.main (some (mockGL rejectLink)) idleImports ⟨MockGL.empty, []⟩).value?.isSome =
      false ∧
    (WebglDemo.main (some (mockGL rejectLink)) idleImports
      ⟨MockGL.empty, []⟩).world.events.getLast?
      = some (Event.typeError "getUniformLocation") ∧
    Event.useProgram none ∉
      (WebglDemo.main (some (mockGL rejectLink)) idleImports ⟨MockGL.empty, []⟩).world.events ∧
    Event.initBuffers ∉
      (WebglDemo.main (some (mockGL rejectLink)) idleImports
        ⟨MockGL.empty, []⟩).world.events := by
  decide

/-- Claim C10, amended: in both scripts `main` leaves through its `return` statement exactly
when the context is `null`, and then it only alerts.  With a context it does not check what
`initShaderProgram` returned: when that is `null`, the next call
`gl.getUniformLocation(null, "uSquareColor")` throws a `TypeError` and `main` ends there,
before `useProgram`, `uniform4fv`, the other lookups, `programInfo`, `initBuffers` and any
drawing; a `TypeError` thrown inside `initShaderProgram` ends `main` as well. -/
theorem main_ends_at_null_program {σ β : Type} (imp : Imports σ β) (w : World σ) :
    Demo.main none imp w =
      Outcome.returned none ⟨w.gl, w.events ++
        [Event.alert "Unable to initialize WebGL. Your browser may not support it."]⟩ ∧
    WebglDemo.main none imp w =
      Outcome.returned none ⟨w.gl, w.events ++
        [Event.alert "Unable to initialize WebGL. Your browser may not support it."]⟩ ∧
    (∀ gl : Device σ, (Demo.main (some gl) imp w).value? ≠ some none ∧
      (WebglDemo.main (some gl) imp w).value? ≠ some none) ∧
    (∀ gl : Device σ,
      (Demo.initShaderProgram gl (WebGL.clear gl (WebGL.clearColor gl w 0 0 0 1))
        Demo.vsSource Demo.fsSource).value? = some none →
      Demo.main (some gl) imp w =
        Outcome.threw
          ⟨(Demo.initShaderProgram gl (WebGL.clear gl (WebGL.clearColor gl w 0 0 0 1))
              Demo.vsSource Demo.fsSource).world.gl,
            (Demo.initShaderProgram gl (WebGL.clear gl (WebGL.clearColor gl w 0 0 0 1))
              Demo.vsSource Demo.fsSource).world.events ++
              [Event.typeError "getUniformLocation"]⟩) ∧
    (∀ gl : Device σ,
      (Demo.initShaderProgram gl (WebGL.clear gl (WebGL.clearColor gl w 0 0 0 1))
        Demo.vsSource Demo.fsSource).value? = none →
      Demo.main (some gl) imp w =
        Outcome.threw
          (Demo.initShaderProgram gl (WebGL.clear gl (WebGL.clearColor gl w 0 0 0 1))
            Demo.vsSource Demo.fsSource).world) ∧
    (∀ gl : Device σ,
      (WebglDemo.initShaderProgram gl (WebGL.clear gl (WebGL.clearColor gl w 0 0 0 1))
        WebglDemo.vsSource WebglDemo.fsSource).value? = some none →
      WebglDemo.main (some gl) imp w =
        Outcome.threw
          ⟨(WebglDemo.initShaderProgram gl (WebGL.clear gl (WebGL.clearColor gl w 0 0 0 1))
              WebglDemo.vsSource WebglDemo.fsSource).world.gl,
            (WebglDemo.initShaderProgram gl (WebGL.clear gl (WebGL.clearColor gl w 0 0 0 1))
              WebglDemo.vsSource WebglDemo.fsSource).world.events ++
              [Event.typeError "getUniformLocation"]⟩) ∧
    (∀ gl : Device σ,
      (WebglDemo.initShaderProgram gl (WebGL.clear gl (WebGL.clearColor gl w 0 0 0 1))
        WebglDemo.vsSource WebglDemo.fsSource).value? = none →
      WebglDemo.main (some gl) imp w =
        Outcome.threw
          (WebglDemo.initShaderProgram gl (WebGL.clear gl (WebGL.clearColor gl w 0 0 0 1))
            WebglDemo.vsSource WebglDemo.fsSource).world) := by
  refine ⟨rfl, rfl, ?_, ?_, ?_, ?_, ?_⟩
  · intro gl
    constructor
    · simp only [Demo.main]
      rcases Demo.buildProgramInfo gl (WebGL.clear gl (WebGL.clearColor gl w 0 0 0 1))
        Demo.vsSource Demo.fsSource with ⟨b, w1⟩ | w1 <;>
        simp [Outcome.bind, Outcome.value?]
    · simp only [WebglDemo.main]
      rcases WebglDemo.buildProgramInfo gl (WebGL.clear gl (WebGL.clearColor gl w 0 0 0 1))
        WebglDemo.vsSource WebglDemo.fsSource with ⟨b, w1⟩ | w1 <;>
        simp [Outcome.bind, Outcome.value?]
  · intro gl h
    simp only [Demo.main, Demo.buildProgramInfo]
    rcases hi : Demo.initShaderProgram gl (WebGL.clear gl (WebGL.clearColor gl w 0 0 0 1))
      Demo.vsSource Demo.fsSource with ⟨p, w1⟩ | w1
    · rw [hi] at h
      simp only [Outcome.value?, Option.some.injEq] at h
      subst h
      rfl
    · rw [hi] at h
      simp [Outcome.value?] at h
  · intro gl h
    simp only [Demo.main, Demo.buildProgramInfo]
    rcases hi : Demo.initShaderProgram gl (WebGL.clear gl (WebGL.clearColor gl w 0 0 0 1))
      Demo.vsSource Demo.fsSource with ⟨p, w1⟩ | w1
    · rw [hi] at h
      simp [Outcome.value?] at h
    · rfl
  · intro gl h
    simp only [WebglDemo.main, WebglDemo.buildProgramInfo]
    rcases hi : WebglDemo.initShaderProgram gl
      (WebGL.clear gl (WebGL.clearColor gl w 0 0 0 1))
      WebglDemo.vsSource WebglDemo.fsSource with ⟨p, w1⟩ | w1
    · rw [hi] at h
      simp only [Outcome.value?, Option.some.injEq] at h
      subst h
      rfl
    · rw [hi] at h
      simp [Outcome.value?] at h
  · intro gl h
    simp only [WebglDemo.main, WebglDemo.buildProgramInfo]
    rcases hi : WebglDemo.initShaderProgram gl
      (WebGL.clear gl (WebGL.clearColor gl w 0 0 0 1))
      WebglDemo.vsSource WebglDemo.fsSource with ⟨p, w1⟩ | w1
    · rw [hi] at h
      simp [Outcome.value?] at h
    · rfl

/-- The end of `main` of `demo.js` after a rejected link, on a device without objects. -/
theorem main_ends_at_null_program_witness :
    (Demo.initShaderProgram (mockGL rejectLink)
      (WebGL.clear (mockGL rejectLink)
        (WebGL.clearColor (mockGL rejectLink) ⟨MockGL.empty, []⟩ 0 0 0 1))
      Demo.vsSource Demo.fsSource).value? = some none ∧
    Demo.main (some (mockGL rejectLink)) idleImports ⟨MockGL.empty, []⟩ =
      Outcome.threw
        ⟨(Demo.initShaderProgram (mockGL rejectLink)
            (WebGL.clear (mockGL rejectLink)
              (WebGL.clearColor (mockGL rejectLink) ⟨MockGL.empty, []⟩ 0 0 0 1))
            Demo.vsSource Demo.fsSource).world.gl,
          (Demo.initShaderProgram (mockGL rejectLink)
            (WebGL.clear (mockGL rejectLink)
              (WebGL.clearColor (mockGL rejectLink) ⟨MockGL.empty, []⟩ 0 0 0 1))
            Demo.vsSource Demo.fsSource).world.events ++
            [Event.typeError "getUniformLocation"]⟩ :=
  ⟨by decide,
    (main_ends_at_null_program idleImports ⟨MockGL.empty, []⟩).2.2.2.1
      (mockGL rejectLink) (by decide)⟩

/-! ## Frames -/

theorem drawRotations_append (l l' : List Event) :
    drawRotations (l ++ l') = drawRotations l ++ drawRotations l' := by
  induction l with
  | nil => rfl
  | cons e t ih => cases e <;> simp [drawRotations, ih]

theorem frames_rotations {σ β : Type} (imp : Imports σ β) (ts : List ℚ) (hne : ts ≠ []) :
    ∀ (sc : Demo.Scene β) (w : World σ), sc.vars.cubeRotation = sc.vars.then_ →
      drawRotations (Demo.frames imp sc w ts).2.events =
        drawRotations w.events ++
          (sc.vars.cubeRotation :: ts.dropLast.map (fun t => t / 1000)).map some ∧
      (Demo.frames imp sc w ts).1.vars.cubeRotation = ts.getLast hne / 1000 := by
  induction ts with
  | nil => exact absurd rfl hne
  | cons t rest ih =>
    intro sc w hinv
    cases rest with
    | nil =>
      simp only [Demo.frames, Demo.render, drawScene, requestAnimationFrame,
        drawRotations_append, List.dropLast_single, List.map_nil, List.map_cons,
        List.getLast_singleton]
      refine ⟨by simp [drawRotations], ?_⟩
      rw [hinv]
      ring
    | cons t2 rest2 =>
      have hstep : (Demo.render imp sc w t).1.vars.cubeRotation =
          (Demo.render imp sc w t).1.vars.then_ := by
        simp only [Demo.render]
        rw [hinv]
        ring
      have h := ih (List.cons_ne_nil t2 rest2) (Demo.render imp sc w t).1
        (Demo.render imp sc w t).2 hstep
      have hc : (Demo.render imp sc w t).1.vars.cubeRotation = t / 1000 := by
        simp only [Demo.render]
        rw [hinv]
        ring
      have he : drawRotations (Demo.render imp sc w t).2.events =
          drawRotations w.events ++ [some sc.vars.cubeRotation] := by
        simp [Demo.render, drawScene, requestAnimationFrame, drawRotations_append,
          drawRotations]
      show drawRotations (Demo.frames imp (Demo.render imp sc w t).1
          (Demo.render imp sc w t).2 (t2 :: rest2)).2.events = _ ∧
        (Demo.frames imp (Demo.render imp sc w t).1
          (Demo.render imp sc w t).2 (t2 :: rest2)).1.vars.cubeRotation = _
      rw [h.1, h.2, he, hc]
      simp [List.dropLast_cons₂]

/-- Claim C9: with exact rational arithmetic, after `main` of `demo.js` has set
`cubeRotation`, `deltaTime` and `then` to `0`, firing `render` for the timestamps
`t_1 .. t_n` (`n ≥ 1`, milliseconds) calls `drawScene` exactly once per frame, with rotation
`0` on the first frame and `t_(k-1) / 1000` on frame `k`, and leaves `cubeRotation` equal to
`t_n / 1000`. -/
theorem render_rotation_telescopes {σ β : Type} (imp : Imports σ β)
    (programInfo : ProgramInfo) (buffers : β) (w : World σ) (ts : List ℚ) (hne : ts ≠ []) :
    drawRotations (Demo.frames imp ⟨⟨0, 0, 0⟩, programInfo, buffers⟩ w ts).2.events =
      drawRotations w.events ++ (0 :: ts.dropLast.map (fun t => t / 1000)).map some ∧
    (drawRotations (Demo.frames imp ⟨⟨0, 0, 0⟩, programInfo, buffers⟩ w ts).2.events).length =
      (drawRotations w.events).length + ts.length ∧
    (Demo.frames imp ⟨⟨0, 0, 0⟩, programInfo, buffers⟩ w ts).1.vars.cubeRotation =
      ts.getLast hne / 1000 := by
  have h := frames_rotations imp ts hne ⟨⟨0, 0, 0⟩, programInfo, buffers⟩ w rfl
  refine ⟨h.1, ?_, h.2⟩
  rw [h.1]
  have hl : ts.length - 1 + 1 = ts.length :=
    Nat.sub_add_cancel (List.length_pos.mpr hne)
  simp [hl]

/-- Three frames at 16, 33 and 50 milliseconds. -/
theorem render_rotation_telescopes_witness :
    ([16, 33, 50] : List ℚ) ≠ [] ∧
    drawRotations (Demo.frames idleImports
        ⟨⟨0, 0, 0⟩, ⟨none, [], []⟩, ()⟩ ⟨MockGL.empty, []⟩ [16, 33, 50]).2.events =
      [some 0, some (16 / 1000), some (33 / 1000)] ∧
    (Demo.frames idleImports
        ⟨⟨0, 0, 0⟩, ⟨none, [], []⟩, ()⟩ ⟨MockGL.empty, []⟩ [16, 33, 50]).1.vars.cubeRotation =
      50 / 1000 :=
  ⟨by simp,
    by
      simpa [drawRotations] using
        (render_rotation_telescopes idleImports ⟨none, [], []⟩ () ⟨MockGL.empty, []⟩
          [16, 33, 50] (by simp)).1,
    by
      simpa using
        (render_rotation_telescopes idleImports ⟨none, [], []⟩ () ⟨MockGL.empty, []⟩
          [16, 33, 50] (by simp)).2.2⟩

end Square3D
